import Mathlib

/-!
# ChCore thread subsystem (`kernel/object/thread.c`)

A shallow embedding of the thread lifecycle code of the ChCore kernel:
`thread_init`, `thread_deinit`, the registration tail of `create_root_thread`,
`create_thread`, `sys_create_thread`, `sys_thread_exit`, and the affinity /
priority / tid-address system calls.

Conventions of the embedding.

* Kernel memory is a total map from thread addresses to thread records and a
  total map from group addresses to capability-group records.
* Every call into a collaborator that lives outside `thread.c` (object
  allocator, capability table, scheduler, futex, user-memory copy, locks) is
  appended to an event trace, in program order.  Collaborator answers that the
  code branches on (`obj_alloc`, `create_thread_ctx`, `cap_alloc`, `cap_copy`,
  `sched_enqueue`) are inputs of the embedded function.
* C `int` values (`thread_cnt`, capabilities, priorities, affinities, return
  codes) are mathematical integers; signed overflow is undefined in C and is
  not modelled.
* A function of the source that does not come back to its caller (scheduler
  hand-off, `sys_exit_group`) ends in `Outcome.noreturn`; a fired `BUG_ON` or a
  dereference of a NULL context ends in `Outcome.bug`.
-/

namespace ChCore

/-- Address of a `struct thread`. -/
abbrev ThreadId := Nat

/-- Address of a `struct cap_group`. -/
abbrev GroupId := Nat

/-- Constants of the kernel headers that `thread.c` uses; the headers are not
part of the file, so the constants are parameters of the embedding.  They are
plain `int` constants: the comparisons the code makes with them are signed. -/
structure Config where
  EINVAL : Int
  ENOMEM : Int
  ECAPBILITY : Int
  MAX_PRIO : Int
  MIN_PRIO : Int
  DEFAULT_PRIO : Int
  PLAT_CPU_NUM : Int
  NO_AFF : Int
  /-- Error numbers are positive, so that `-EINVAL` is a negative code. -/
  EINVAL_pos : 0 < EINVAL
  /-- Error numbers are positive, so that `-ENOMEM` is a negative code. -/
  ENOMEM_pos : 0 < ENOMEM
  /-- Error numbers are positive, so that `-ECAPBILITY` is a negative code. -/
  ECAPBILITY_pos : 0 < ECAPBILITY

/-- The `u32` thread type tag.  The four tags that `thread.c` names are
constructors; every other tag value is `TYPE_OTHER`. -/
inductive thread_type where
  | TYPE_USER
  | TYPE_SHADOW
  | TYPE_REGISTER
  | TYPE_TRACEE
  | TYPE_OTHER (tag : Nat)
  deriving DecidableEq, Repr

/-- Execution state kept in the thread context.  `TS_INTER`, `TS_WAITING` and
`TS_EXIT` are the states `thread.c` names; `TS_INIT` is the state a context
has before `create_thread` classifies it. -/
inductive thread_state where
  | TS_INIT
  | TS_INTER
  | TS_WAITING
  | TS_EXIT
  deriving DecidableEq, Repr

/-- Exit state of a thread.  `TE_EXITING` and `TE_EXITED` are named in
`thread.c`; `TE_NONE` is the state before any exit was requested. -/
inductive thread_exit_state where
  | TE_NONE
  | TE_EXITING
  | TE_EXITED
  deriving DecidableEq, Repr

/-- Fields of `struct thread_ctx` that `thread.c` reads or writes;
`prio` is `thread_ctx->sc->prio`. -/
structure thread_ctx where
  state : thread_state
  thread_exit_state : thread_exit_state
  is_suspended : Bool
  affinity : Int
  prio : Int
  type : thread_type
  stack : Nat
  pc : Nat
  arg0 : Nat
  tls : Nat
  deriving DecidableEq, Repr

/-- Fields of `struct thread` that `thread.c` reads or writes.  Pointers are
options (`none` is NULL); `clear_child_tid` is a user address, `0` is NULL. -/
structure thread where
  cap_group : Option GroupId
  vmspace : Option GroupId
  thread_ctx : Option thread_ctx
  prev_thread : Option ThreadId
  general_ipc_config : Option Nat
  sleep_cb : Option Nat
  cap : Int
  clear_child_tid : Nat
  deriving DecidableEq, Repr

/-- A kernel object a capability can name. -/
inductive Obj where
  | cap_group (g : GroupId)
  | vmspace (g : GroupId)
  | thread (t : ThreadId)
  deriving DecidableEq, Repr

/-- Calls into collaborators, recorded in program order. -/
inductive Event where
  | obj_alloc (r : Option ThreadId)
  | obj_get (o : Obj)
  | obj_put (o : Obj)
  | obj_free (t : ThreadId)
  | lock (g : GroupId)
  | unlock (g : GroupId)
  | cap_alloc (g : GroupId) (o : Obj) (r : Int)
  | cap_copy (src dst : GroupId) (cap : Int) (r : Int)
  | sched_enqueue (t : ThreadId)
  | sched
  | switch_context
  | eret_to_thread
  | sys_exit_group (code : Int)
  | copy_to_user (dst : Nat) (val : Int) (size : Nat)
  | sys_futex_wake (uaddr : Nat) (op : Int) (val : Int)
  | kwarn
  | kfree (p : Nat)
  | destroy_thread_ctx (t : ThreadId)
  deriving DecidableEq, Repr

/-- Fields of `struct cap_group` used by `thread.c`: the intrusive
`thread_list` (head first), the counter `thread_cnt`, and the slot table
mapping a capability id to the object it names. -/
structure cap_group where
  thread_list : List ThreadId
  thread_cnt : Int
  slot_table : Int → Option Obj

/-- Kernel state seen by `thread.c` on one core. -/
structure KState where
  groups : GroupId → cap_group
  threads : ThreadId → thread
  current_thread : ThreadId
  current_cap_group : GroupId
  trace : List Event

/-- How a call ends. -/
inductive Outcome (α : Type) where
  | ret (v : α)
  | noreturn
  | bug
  deriving DecidableEq, Repr

/-- Answers of the collaborators during one `create_thread` or
`create_root_thread` call. -/
structure CreateEnv where
  obj_alloc : Option ThreadId
  create_thread_ctx : Bool
  cap_alloc : Int
  cap_copy : Int
  sched_enqueue : Int

/-- The `sizeof(int)` of the kernel targets. -/
def sizeof_int : Nat := 4

/-- Append one collaborator call to the trace. -/
def KState.emit (s : KState) (e : Event) : KState :=
  { s with trace := s.trace ++ [e] }

/-- Write to the fields of the capability group at address `g`. -/
def KState.set_group (s : KState) (g : GroupId) (f : cap_group → cap_group) : KState :=
  { s with groups := fun k => if k = g then f (s.groups g) else s.groups k }

/-- Write to the fields of the thread at address `t`. -/
def KState.set_thread (s : KState) (t : ThreadId) (f : thread → thread) : KState :=
  { s with threads := fun k => if k = t then f (s.threads t) else s.threads k }

/-- Write to the fields of the context of the thread at address `t`.  Every
use follows a check, or the creation, of that context. -/
def KState.update_ctx (s : KState) (t : ThreadId) (f : thread_ctx → thread_ctx) : KState :=
  s.set_thread t (fun th => { th with thread_ctx := th.thread_ctx.map f })

/-- The events a call appended to the trace of the state it started from. -/
def new_events (s s' : KState) : List Event :=
  s'.trace.drop s.trace.length

/-- A zero-filled thread object, as `obj_alloc` hands it out. -/
def zero_thread : thread :=
  { cap_group := none, vmspace := none, thread_ctx := none, prev_thread := none,
    general_ipc_config := none, sleep_cb := none, cap := 0, clear_child_tid := 0 }

/-- The `list_add(&thread->node, &cap_group->thread_list)` of the source:
link the node right after the list head. -/
def list_add (t : ThreadId) (l : List ThreadId) : List ThreadId := t :: l

/-- The `list_del(&thread->node)` of the source: unlink the node. -/
def list_del (t : ThreadId) (l : List ThreadId) : List ThreadId := l.erase t

/-- Modelled from the spec: `init_thread_ctx` is architecture code outside
`thread.c`.  It fills the fresh context from its arguments (stack, entry pc,
priority, type, affinity); the thread starts in its initial execution state,
with no exit requested and not suspended. -/
def init_thread_ctx (stack pc : Nat) (prio : Int) (type : thread_type) (aff : Int) :
    thread_ctx :=
  { state := .TS_INIT, thread_exit_state := .TE_NONE, is_suspended := false,
    affinity := aff, prio := prio, type := type, stack := stack, pc := pc,
    arg0 := 0, tls := 0 }

/-- Modelled from the spec: `obj_get(group, cap, TYPE_THREAD)` of the object
registry, "acquire(holder_group, capability_id, expected_type)": the thread
named by the slot, or NULL when the slot is empty or names another type. -/
def obj_get_thread (s : KState) (g : GroupId) (cap : Int) : Option ThreadId :=
  match (s.groups g).slot_table cap with
  | some (Obj.thread t) => some t
  | _ => none

/-- Modelled from the spec: `cap_alloc(group, object)` of the capability
table, "allocate_capability(group, object) -> id|error".  The table answers
`r`; a negative answer is an error and leaves the table as it is, any other
answer is the id of the slot that now names the object. -/
def cap_alloc (s : KState) (g : GroupId) (o : Obj) (r : Int) : KState × Int :=
  let s1 := s.emit (.cap_alloc g o r)
  if r < 0 then (s1, r)
  else
    (s1.set_group g (fun cg =>
      { cg with slot_table := fun c => if c = r then some o else cg.slot_table c }), r)

/-- Modelled from the spec: `cap_copy(src, dst, cap)` of the capability
table, "copy_capability(src_group, dst_group, id) -> id|error".  The table
answers `r`; a negative answer is an error, any other answer is the id of the
slot of `dst` that now names what `cap` names in `src`. -/
def cap_copy (s : KState) (src dst : GroupId) (cap : Int) (r : Int) : KState × Int :=
  let s1 := s.emit (.cap_copy src dst cap r)
  if r < 0 then (s1, r)
  else
    let named := (s1.groups src).slot_table cap
    (s1.set_group dst (fun cg =>
      { cg with slot_table := fun c => if c = r then named else cg.slot_table c }), r)

/-- The `thread_init` of the source.  The two `obj_get` calls read the group's
own standard slots (the group itself and its address space) and are paired
with `obj_put`; `ctx_ok` tells whether `create_thread_ctx` returned a
context. -/
def thread_init (cfg : Config) (ctx_ok : Bool) (s : KState) (t : ThreadId)
    (cap_group : GroupId) (stack pc : Nat) (prio : Int) (type : thread_type) (aff : Int) :
    KState × Int :=
  let s1 := s.emit (.obj_get (.cap_group cap_group))
  let s2 := s1.set_thread t (fun th => { th with cap_group := some cap_group })
  let s3 := s2.emit (.obj_get (.vmspace cap_group))
  let s4 := s3.set_thread t (fun th => { th with vmspace := some cap_group })
  let s5 := (s4.emit (.obj_put (.cap_group cap_group))).emit (.obj_put (.vmspace cap_group))
  if ctx_ok = false then
    (s5.set_thread t (fun th => { th with thread_ctx := none }), -cfg.ENOMEM)
  else
    let s6 := s5.set_thread t (fun th =>
      { th with thread_ctx := some (init_thread_ctx stack pc prio type aff) })
    let s7 := s6.set_thread t (fun th =>
      { th with prev_thread := none, general_ipc_config := none, sleep_cb := none })
    (s7, 0)

/-- The `thread_deinit` of the source. -/
def thread_deinit (s : KState) (t : ThreadId) : KState × Outcome Unit :=
  match (s.threads t).thread_ctx with
  | none => (s, .bug)
  | some c =>
    if c.thread_exit_state ≠ .TE_EXITED then (s, .bug)
    else
      let s1 := if c.state ≠ .TS_EXIT then s.emit .kwarn else s
      match (s1.threads t).cap_group with
      | none => (s1, .bug)
      | some g =>
        let s2 := s1.emit (.lock g)
        let s3 := s2.set_group g (fun cg =>
          { cg with thread_list := list_del t cg.thread_list })
        let s4 := s3.emit (.unlock g)
        let s5 := match (s4.threads t).general_ipc_config with
          | some p => s4.emit (.kfree p)
          | none => s4
        (s5.emit (.destroy_thread_ctx t), .ret ())

/-- The `test_root_thread_after_create` of the source: `true` when one of its
two `BUG_ON` conditions fires. -/
def test_root_thread_after_create (ptr : cap_group) (thread_cap : Int) : Bool :=
  decide (ptr.thread_cnt = 0) || decide (thread_cap = 0)

/-- The `create_root_thread` of the source from the allocation of the init
thread on.  The part before it (reading the image header, creating the root
group `root_cap_group`, mapping stack and segments) touches neither a thread
list nor a counter; its results are the arguments `root_cap_group`, `stack`,
`entry` and `cpu` (the value of `smp_get_cpu_id()`).  A capability that does
not resolve in the final `obj_get` would hand NULL to `sched_enqueue`; that
case ends in `Outcome.bug`. -/
def create_root_thread (cfg : Config) (env : CreateEnv) (s : KState)
    (root_cap_group : GroupId) (stack entry : Nat) (cpu : Int) : KState × Outcome Unit :=
  let s0 := s.emit (.obj_alloc env.obj_alloc)
  match env.obj_alloc with
  | none => (s0, .bug)
  | some t =>
    let s1 := s0.set_thread t (fun _ => zero_thread)
    let r := thread_init cfg env.create_thread_ctx s1 t root_cap_group stack entry
      cfg.DEFAULT_PRIO .TYPE_USER cpu
    if r.2 ≠ 0 then (r.1, .bug)
    else
      let s3 := r.1.emit (.lock root_cap_group)
      let s4 := s3.set_group root_cap_group (fun cg =>
        { cg with thread_list := list_add t cg.thread_list })
      let s5 := s4.set_group root_cap_group (fun cg =>
        { cg with thread_cnt := cg.thread_cnt + 1 })
      let s6 := s5.emit (.unlock root_cap_group)
      let a := cap_alloc s6 root_cap_group (.thread t) env.cap_alloc
      let thread_cap := a.2
      if thread_cap < 0 then (a.1, .bug)
      else if test_root_thread_after_create (a.1.groups root_cap_group) thread_cap then
        (a.1, .bug)
      else
        match obj_get_thread a.1 root_cap_group thread_cap with
        | none => (a.1, .bug)
        | some root_thread =>
          let s8 := a.1.emit (.obj_get (.thread root_thread))
          let s9 := s8.emit (.sched_enqueue root_thread)
          if env.sched_enqueue ≠ 0 then (s9, .bug)
          else (s9.emit (.obj_put (.thread root_thread)), .ret ())

/-- Lines 471 to 480 of `create_thread`: the dispatch on the thread type.
`type` is the type after a tracee was reclassified, `startup_suspend` tells
whether it was one, `cap` is the capability the call returns. -/
def create_thread_dispatch (env : CreateEnv) (s : KState) (t : ThreadId)
    (type : thread_type) (startup_suspend : Bool) (cap : Int) : KState × Outcome Int :=
  if type = .TYPE_USER then
    let s1 := s.update_ctx t (fun c => { c with state := .TS_INTER })
    let s2 := if startup_suspend then
        s1.update_ctx t (fun c => { c with is_suspended := true })
      else s1
    let s3 := s2.emit (.sched_enqueue t)
    if env.sched_enqueue ≠ 0 then (s3, .bug)
    else (s3, .ret cap)
  else if type = .TYPE_SHADOW ∨ type = .TYPE_REGISTER then
    (s.update_ctx t (fun c => { c with state := .TS_WAITING }), .ret cap)
  else (s, .ret cap)

/-- Lines 446 to 480 of `create_thread`: what the function does once the
exit-state check let the caller through, with the group lock held: register
the thread, set argument and TLS, allocate and copy the capability, dispatch
on the type.  `set_thread_arch_spec_state` touches architecture state only and
has no counterpart here. -/
def create_thread_publish (env : CreateEnv) (s : KState) (cap_group : GroupId)
    (t : ThreadId) (arg : Nat) (type : thread_type) (startup_suspend : Bool) (tls : Nat)
    (clear_child_tid : Nat) : KState × Outcome Int :=
  let s4 := s.set_group cap_group (fun cg =>
    { cg with thread_list := list_add t cg.thread_list })
  let s5 := s4.set_group cap_group (fun cg => { cg with thread_cnt := cg.thread_cnt + 1 })
  let s6 := s5.emit (.unlock cap_group)
  let s7 := s6.update_ctx t (fun c => { c with arg0 := arg })
  let s8 := s7.update_ctx t (fun c => { c with tls := tls })
  let a := cap_alloc s8 cap_group (.thread t) env.cap_alloc
  if a.2 < 0 then (a.1.emit (.obj_free t), .ret a.2)
  else
    let s10 := a.1.set_thread t (fun th => { th with cap := a.2 })
    let s11 := s10.set_thread t (fun th => { th with clear_child_tid := clear_child_tid })
    let b :=
      if cap_group ≠ s11.current_cap_group then
        cap_copy s11 cap_group s11.current_cap_group a.2 env.cap_copy
      else (s11, a.2)
    create_thread_dispatch env b.1 t type startup_suspend b.2

/-- Lines 431 to 444 of `create_thread`: take the group lock and check the
exit state of the calling thread.  An exiting caller frees the new thread,
drops the group reference and hands over to the scheduler; any other caller
goes on to `create_thread_publish`. -/
def create_thread_locked (env : CreateEnv) (s : KState) (cap_group : GroupId)
    (t : ThreadId) (arg : Nat) (type : thread_type) (startup_suspend : Bool) (tls : Nat)
    (clear_child_tid : Nat) : KState × Outcome Int :=
  let s3 := s.emit (.lock cap_group)
  match (s3.threads s3.current_thread).thread_ctx with
  | none => (s3, .bug)
  | some cur =>
    if cur.thread_exit_state = .TE_EXITING then
      let s4 := s3.emit (.unlock cap_group)
      let s5 := s4.emit (.obj_free t)
      let s6 := s5.emit (.obj_put (.cap_group cap_group))
      let s7 := s6.emit .sched
      let s8 := s7.emit .switch_context
      (s8.emit .eret_to_thread, .noreturn)
    else
      create_thread_publish env s3 cap_group t arg type startup_suspend tls clear_child_tid

/-- The `create_thread` of the source: lines 418 to 429 (allocation and
initialisation, with the unwinding of their failures), continued by
`create_thread_locked`. -/
def create_thread (cfg : Config) (env : CreateEnv) (s : KState) (cap_group : GroupId)
    (stack pc arg : Nat) (prio : Int) (type : thread_type) (tls : Nat)
    (clear_child_tid : Nat) : KState × Outcome Int :=
  let s0 := s.emit (.obj_alloc env.obj_alloc)
  match env.obj_alloc with
  | none => (s0, .ret (-cfg.ENOMEM))
  | some t =>
    let s1 := s0.set_thread t (fun _ => zero_thread)
    let startup_suspend : Bool := decide (type = .TYPE_TRACEE)
    let type : thread_type := if type = .TYPE_TRACEE then .TYPE_USER else type
    let r := thread_init cfg env.create_thread_ctx s1 t cap_group stack pc prio type cfg.NO_AFF
    if r.2 ≠ 0 then (r.1.emit (.obj_free t), .ret r.2)
    else create_thread_locked env r.1 cap_group t arg type startup_suspend tls clear_child_tid

/-- The `struct thread_args` of the source. -/
structure thread_args where
  cap_group_cap : Int
  stack : Nat
  pc : Nat
  arg : Nat
  tls : Nat
  prio : Nat
  type : thread_type
  clear_child_tid : Nat

/-- Modelled from the spec: `obj_get(group, cap, TYPE_CAP_GROUP)` of the object
registry: the capability group named by the slot, or NULL when the slot is
empty or names another type. -/
def obj_get_cap_group (s : KState) (g : GroupId) (cap : Int) : Option GroupId :=
  match (s.groups g).slot_table cap with
  | some (Obj.cap_group h) => some h
  | _ => none

/-- The `sys_create_thread` of the source.  `range_check` and `copy_ret` are
the answers of `check_user_addr_range` and `copy_from_user`; `args` is the
argument block the copy produced.  The unsigned priority of the block is
compared with the two priority constants as an integer. -/
def sys_create_thread (cfg : Config) (env : CreateEnv) (range_check copy_ret : Int)
    (args : thread_args) (s : KState) : KState × Outcome Int :=
  if range_check ≠ 0 then (s, .ret (-cfg.EINVAL))
  else if copy_ret ≠ 0 then (s, .ret (-cfg.EINVAL))
  else
    let type := args.type
    if type ≠ .TYPE_USER ∧ type ≠ .TYPE_SHADOW ∧ type ≠ .TYPE_REGISTER
        ∧ type ≠ .TYPE_TRACEE then (s, .ret (-cfg.EINVAL))
    else if (args.prio : Int) > cfg.MAX_PRIO ∨ (args.prio : Int) < cfg.MIN_PRIO then
      (s, .ret (-cfg.EINVAL))
    else
      match obj_get_cap_group s s.current_cap_group args.cap_group_cap with
      | none => (s, .ret (-cfg.ECAPBILITY))
      | some cap_group =>
        let s1 := s.emit (.obj_get (.cap_group cap_group))
        match create_thread cfg env s1 cap_group args.stack args.pc args.arg args.prio type
            args.tls args.clear_child_tid with
        | (s2, .ret thread_cap) => (s2.emit (.obj_put (.cap_group cap_group)), .ret thread_cap)
        | (s2, .noreturn) => (s2, .noreturn)
        | (s2, .bug) => (s2, .bug)

/-- The `sys_thread_exit` of the source.  `sys_exit_group` does not come back
("The control flow will not go through"), and neither does the final
`eret_to_thread`. -/
def sys_thread_exit (s : KState) : KState × Outcome Unit :=
  match (s.threads s.current_thread).thread_ctx with
  | none => (s, .bug)
  | some _ =>
    let s1 := s.update_ctx s.current_thread (fun c => { c with thread_exit_state := .TE_EXITING })
    let g := s1.current_cap_group
    let s2 := s1.emit (.lock g)
    let cnt : Int := (s2.groups g).thread_cnt - 1
    let s3 := s2.set_group g (fun cg => { cg with thread_cnt := cnt })
    let s4 := s3.emit (.unlock g)
    if cnt = 0 then (s4.emit (.sys_exit_group 0), .noreturn)
    else
      let tidptr := (s4.threads s4.current_thread).clear_child_tid
      let s5 := if tidptr ≠ 0 then
          (s4.emit (.copy_to_user tidptr 0 sizeof_int)).emit (.sys_futex_wake tidptr 0 1)
        else s4
      let s6 := s5.emit .sched
      let s7 := s6.emit .switch_context
      (s7.emit .eret_to_thread, .noreturn)

/-- The `sys_set_affinity` of the source. -/
def sys_set_affinity (cfg : Config) (s : KState) (thread_cap : Int) (aff : Int) :
    KState × Outcome Int :=
  if aff ≥ cfg.PLAT_CPU_NUM then (s, .ret (-cfg.EINVAL))
  else
    let thread : Option ThreadId :=
      if thread_cap = 0 then some s.current_thread
      else obj_get_thread s s.current_cap_group thread_cap
    match thread with
    | none => (s, .ret (-cfg.ECAPBILITY))
    | some t =>
      let s1 := if thread_cap = 0 then s else s.emit (.obj_get (.thread t))
      match (s1.threads t).thread_ctx with
      | none => (s1, .bug)
      | some _ =>
        let s2 := s1.update_ctx t (fun c => { c with affinity := aff })
        let s3 := if thread_cap ≠ 0 then s2.emit (.obj_put (.thread t)) else s2
        (s3, .ret 0)

/-- The `sys_get_affinity` of the source. -/
def sys_get_affinity (cfg : Config) (s : KState) (thread_cap : Int) : KState × Outcome Int :=
  let thread : Option ThreadId :=
    if thread_cap = 0 then some s.current_thread
    else obj_get_thread s s.current_cap_group thread_cap
  match thread with
  | none => (s, .ret (-cfg.ECAPBILITY))
  | some t =>
    let s1 := if thread_cap = 0 then s else s.emit (.obj_get (.thread t))
    match (s1.threads t).thread_ctx with
    | none => (s1, .bug)
    | some c =>
      let aff := c.affinity
      let s2 := if thread_cap ≠ 0 then s1.emit (.obj_put (.thread t)) else s1
      (s2, .ret aff)

/-- The `sys_set_prio` of the source. -/
def sys_set_prio (cfg : Config) (s : KState) (thread_cap : Int) (prio : Int) :
    KState × Outcome Int :=
  if thread_cap ≠ 0 then (s, .ret (-cfg.EINVAL))
  else if prio ≤ 0 ∨ prio > cfg.MAX_PRIO then (s, .ret (-cfg.EINVAL))
  else
    match (s.threads s.current_thread).thread_ctx with
    | none => (s, .bug)
    | some _ => (s.update_ctx s.current_thread (fun c => { c with prio := prio }), .ret 0)

/-- The `sys_get_prio` of the source. -/
def sys_get_prio (cfg : Config) (s : KState) (thread_cap : Int) : KState × Outcome Int :=
  if thread_cap ≠ 0 then (s, .ret (-cfg.EINVAL))
  else
    match (s.threads s.current_thread).thread_ctx with
    | none => (s, .bug)
    | some c => (s, .ret c.prio)

/-- The `sys_set_tid_address` of the source. -/
def sys_set_tid_address (s : KState) (tidptr : Nat) : KState × Outcome Int :=
  (s.set_thread s.current_thread (fun th => { th with clear_child_tid := tidptr }), .ret 0)

/-! ## Concrete configuration and states used to evaluate the code -/

/-- A concrete configuration: four cores, priorities 1 to 255. -/
def demo_cfg : Config :=
  { EINVAL := 22, ENOMEM := 12, ECAPBILITY := 60, MAX_PRIO := 255, MIN_PRIO := 1,
    DEFAULT_PRIO := 10, PLAT_CPU_NUM := 4, NO_AFF := -1,
    EINVAL_pos := by decide, ENOMEM_pos := by decide, ECAPBILITY_pos := by decide }

/-- A running user thread of group `g` with clear-on-exit address `tid`. -/
def demo_thread (g : GroupId) (tid : Nat) : thread :=
  { zero_thread with
    cap_group := some g, vmspace := some g, clear_child_tid := tid,
    thread_ctx := some { init_thread_ctx 4096 64 10 .TYPE_USER 0 with state := .TS_INTER } }

/-- Two one-thread groups: group 0 holds thread 1, group 1 holds thread 2 and
a capability (slot 3) for group 0. -/
def demo_groups (g : GroupId) : cap_group :=
  if g = 0 then
    { thread_list := [1], thread_cnt := 1,
      slot_table := fun c =>
        if c = 0 then some (.cap_group 0) else if c = 1 then some (.vmspace 0)
        else if c = 2 then some (.thread 1) else none }
  else if g = 1 then
    { thread_list := [2], thread_cnt := 1,
      slot_table := fun c =>
        if c = 0 then some (.cap_group 1) else if c = 1 then some (.vmspace 1)
        else if c = 2 then some (.thread 2) else if c = 3 then some (.cap_group 0)
        else none }
  else { thread_list := [], thread_cnt := 0, slot_table := fun _ => none }

/-- Thread 1 of group 0 is running; thread 2 belongs to group 1. -/
def demo_state : KState :=
  { groups := demo_groups,
    threads := fun t => if t = 1 then demo_thread 0 0 else if t = 2 then demo_thread 1 0
      else zero_thread,
    current_thread := 1, current_cap_group := 0, trace := [] }

/-- Collaborator answers of a create call in which every step succeeds: the new
thread object is at address 3, the target group hands out slot 5 and the
creator's table slot 7. -/
def demo_env : CreateEnv :=
  { obj_alloc := some 3, create_thread_ctx := true, cap_alloc := 5, cap_copy := 7,
    sched_enqueue := 0 }

/-- Collaborator answers of a create call in which `cap_alloc` fails. -/
def demo_env_cap_alloc_fails : CreateEnv := { demo_env with cap_alloc := -12 }

/-- Collaborator answers of a create call in which `cap_copy` fails. -/
def demo_env_cap_copy_fails : CreateEnv := { demo_env with cap_copy := -12 }

/-- The state `demo_state` with thread 2 of group 1 on the core. -/
def demo_state_thread2 : KState :=
  { demo_state with current_thread := 2, current_cap_group := 1 }

/-- The state after thread 1, the only thread of group 0, called
`sys_thread_exit`, once the core runs thread 2 of group 1. -/
def demo_state_after_exit : KState :=
  { (sys_thread_exit demo_state).1 with current_thread := 2, current_cap_group := 1 }

/-- The state `demo_state` in which the running thread 1 is already exiting. -/
def demo_state_exiting : KState :=
  demo_state.update_ctx 1 (fun c => { c with thread_exit_state := .TE_EXITING })

/-- A two-thread group: `demo_state` with thread 3 also registered in group 0
and the running thread 1 holding the clear-on-exit address `tid`. -/
def demo_state_two_threads (tid : Nat) : KState :=
  (sys_set_tid_address
    ((demo_state.set_thread 3 (fun _ => demo_thread 0 0)).set_group 0 (fun cg =>
      { cg with thread_list := list_add 3 cg.thread_list, thread_cnt := cg.thread_cnt + 1 }))
    tid).1

/-- The state `create_thread` hands to `create_thread_locked` when the thread
object `t` was allocated and initialised. -/
def create_thread_inited (cfg : Config) (s : KState) (g : GroupId) (stack pc : Nat)
    (prio : Int) (type : thread_type) (t : ThreadId) : KState :=
  (thread_init cfg true ((s.emit (.obj_alloc (some t))).set_thread t (fun _ => zero_thread))
    t g stack pc prio (if type = .TYPE_TRACEE then .TYPE_USER else type) cfg.NO_AFF).1

/-- Collaborator answers of a create call in which `cap_alloc` answers id 0. -/
def demo_env_cap_zero : CreateEnv := { demo_env with cap_alloc := 0 }

/-- The state a failed create leaves: thread 1 of group 0 called
`create_thread` for its own group and `cap_alloc` answered `-12`, so the thread
object at address 3 was freed while still linked in the list of group 0. -/
def demo_state_after_failed_create : KState :=
  (create_thread demo_cfg demo_env_cap_alloc_fails demo_state 0 4096 64 0 10 .TYPE_USER
    0 0).1

/-- The state `demo_state` in which the running thread 1 has exit state
`TE_EXITED`. -/
def demo_state_exited : KState :=
  demo_state.update_ctx 1 (fun c => { c with thread_exit_state := .TE_EXITED })

/-- Modelled from the spec: the order of the exit states, "None → Exiting →
Exited"; the enumeration itself is declared outside `thread.c`. -/
def exit_rank : thread_exit_state → Nat
  | .TE_NONE => 0
  | .TE_EXITING => 1
  | .TE_EXITED => 2

/-- The exit state of the thread at address `k`, when it has a context. -/
def exit_state_of (s : KState) (k : ThreadId) : Option thread_exit_state :=
  (s.threads k).thread_ctx.map (fun c => c.thread_exit_state)

/-- An argument block that thread 2 of group 1 can pass to `sys_create_thread`:
a user thread of priority 10 in the group named by its slot 3 (group 0). -/
def demo_args : thread_args :=
  { cap_group_cap := 3, stack := 4096, pc := 64, arg := 0, tls := 0, prio := 10,
    type := .TYPE_USER, clear_child_tid := 0 }

/-- The block `demo_args` with an unknown type tag. -/
def demo_args_bad_type : thread_args := { demo_args with type := .TYPE_OTHER 9 }

/-- The block `demo_args` with a priority above `MAX_PRIO` of `demo_cfg`. -/
def demo_args_bad_prio : thread_args := { demo_args with prio := 256 }

/-- The block `demo_args` with a capability that names a thread, not a group. -/
def demo_args_bad_cap : thread_args := { demo_args with cap_group_cap := 2 }

/-! ## Projections of the state updates -/

@[simp] theorem emit_groups (s : KState) (e : Event) : (s.emit e).groups = s.groups := rfl

@[simp] theorem emit_threads (s : KState) (e : Event) : (s.emit e).threads = s.threads := rfl

@[simp] theorem emit_current_thread (s : KState) (e : Event) :
    (s.emit e).current_thread = s.current_thread := rfl

@[simp] theorem emit_current_cap_group (s : KState) (e : Event) :
    (s.emit e).current_cap_group = s.current_cap_group := rfl

@[simp] theorem emit_trace (s : KState) (e : Event) : (s.emit e).trace = s.trace ++ [e] := rfl

@[simp] theorem set_group_groups (s : KState) (g k : GroupId) (f : cap_group → cap_group) :
    (s.set_group g f).groups k = if k = g then f (s.groups g) else s.groups k := rfl

@[simp] theorem set_group_threads (s : KState) (g : GroupId) (f : cap_group → cap_group) :
    (s.set_group g f).threads = s.threads := rfl

@[simp] theorem set_group_current_thread (s : KState) (g : GroupId) (f : cap_group → cap_group) :
    (s.set_group g f).current_thread = s.current_thread := rfl

@[simp] theorem set_group_current_cap_group (s : KState) (g : GroupId)
    (f : cap_group → cap_group) :
    (s.set_group g f).current_cap_group = s.current_cap_group := rfl

@[simp] theorem set_group_trace (s : KState) (g : GroupId) (f : cap_group → cap_group) :
    (s.set_group g f).trace = s.trace := rfl

@[simp] theorem set_thread_groups (s : KState) (t : ThreadId) (f : thread → thread) :
    (s.set_thread t f).groups = s.groups := rfl

@[simp] theorem set_thread_threads (s : KState) (t k : ThreadId) (f : thread → thread) :
    (s.set_thread t f).threads k = if k = t then f (s.threads t) else s.threads k := rfl

@[simp] theorem set_thread_current_thread (s : KState) (t : ThreadId) (f : thread → thread) :
    (s.set_thread t f).current_thread = s.current_thread := rfl

@[simp] theorem set_thread_current_cap_group (s : KState) (t : ThreadId) (f : thread → thread) :
    (s.set_thread t f).current_cap_group = s.current_cap_group := rfl

@[simp] theorem set_thread_trace (s : KState) (t : ThreadId) (f : thread → thread) :
    (s.set_thread t f).trace = s.trace := rfl

@[simp] theorem update_ctx_groups (s : KState) (t : ThreadId) (f : thread_ctx → thread_ctx) :
    (s.update_ctx t f).groups = s.groups := rfl

@[simp] theorem update_ctx_threads (s : KState) (t k : ThreadId)
    (f : thread_ctx → thread_ctx) :
    (s.update_ctx t f).threads k =
      if k = t then { s.threads t with thread_ctx := (s.threads t).thread_ctx.map f }
      else s.threads k := rfl

@[simp] theorem update_ctx_current_thread (s : KState) (t : ThreadId)
    (f : thread_ctx → thread_ctx) : (s.update_ctx t f).current_thread = s.current_thread := rfl

@[simp] theorem update_ctx_current_cap_group (s : KState) (t : ThreadId)
    (f : thread_ctx → thread_ctx) :
    (s.update_ctx t f).current_cap_group = s.current_cap_group := rfl

@[simp] theorem update_ctx_trace (s : KState) (t : ThreadId) (f : thread_ctx → thread_ctx) :
    (s.update_ctx t f).trace = s.trace := rfl

theorem new_events_append (s s' : KState) (l : List Event) (h : s'.trace = s.trace ++ l) :
    new_events s s' = l := by
  simp [new_events, h]

/-! ## Facts about the helper operations -/

section thread_init_facts

variable (cfg : Config) (ok : Bool) (s : KState) (t : ThreadId) (g : GroupId)
  (stack pc : Nat) (prio : Int) (type : thread_type) (aff : Int)

@[simp] theorem thread_init_groups :
    (thread_init cfg ok s t g stack pc prio type aff).1.groups = s.groups := by
  unfold thread_init
  cases ok <;> simp

@[simp] theorem thread_init_current_thread :
    (thread_init cfg ok s t g stack pc prio type aff).1.current_thread = s.current_thread := by
  unfold thread_init
  cases ok <;> simp

@[simp] theorem thread_init_current_cap_group :
    (thread_init cfg ok s t g stack pc prio type aff).1.current_cap_group
      = s.current_cap_group := by
  unfold thread_init
  cases ok <;> simp

@[simp] theorem thread_init_trace :
    (thread_init cfg ok s t g stack pc prio type aff).1.trace =
      s.trace ++ [.obj_get (.cap_group g), .obj_get (.vmspace g), .obj_put (.cap_group g),
        .obj_put (.vmspace g)] := by
  unfold thread_init
  cases ok <;> simp

@[simp] theorem thread_init_ret :
    (thread_init cfg ok s t g stack pc prio type aff).2
      = if ok = true then 0 else -cfg.ENOMEM := by
  unfold thread_init
  cases ok <;> simp

theorem thread_init_threads_ne (k : ThreadId) (hk : k ≠ t) :
    (thread_init cfg ok s t g stack pc prio type aff).1.threads k = s.threads k := by
  unfold thread_init
  cases ok <;> simp [hk]

theorem thread_init_threads_ctx :
    ((thread_init cfg true s t g stack pc prio type aff).1.threads t).thread_ctx
      = some (init_thread_ctx stack pc prio type aff) := by
  unfold thread_init
  simp

end thread_init_facts

theorem neg_ENOMEM_ne_zero (cfg : Config) : -cfg.ENOMEM ≠ 0 := by
  have := cfg.ENOMEM_pos
  omega

section cap_facts

variable (s : KState) (g src dst : GroupId) (o : Obj) (cap r : Int)

@[simp] theorem cap_alloc_snd : (cap_alloc s g o r).2 = r := by
  unfold cap_alloc
  split <;> rfl

@[simp] theorem cap_alloc_threads : (cap_alloc s g o r).1.threads = s.threads := by
  unfold cap_alloc
  split <;> rfl

@[simp] theorem cap_alloc_current_thread :
    (cap_alloc s g o r).1.current_thread = s.current_thread := by
  unfold cap_alloc
  split <;> rfl

@[simp] theorem cap_alloc_current_cap_group :
    (cap_alloc s g o r).1.current_cap_group = s.current_cap_group := by
  unfold cap_alloc
  split <;> rfl

@[simp] theorem cap_alloc_trace :
    (cap_alloc s g o r).1.trace = s.trace ++ [.cap_alloc g o r] := by
  unfold cap_alloc
  split <;> rfl

@[simp] theorem cap_alloc_thread_list (k : GroupId) :
    ((cap_alloc s g o r).1.groups k).thread_list = (s.groups k).thread_list := by
  unfold cap_alloc
  split
  · rfl
  · by_cases hk : k = g <;> simp [hk]

@[simp] theorem cap_alloc_thread_cnt (k : GroupId) :
    ((cap_alloc s g o r).1.groups k).thread_cnt = (s.groups k).thread_cnt := by
  unfold cap_alloc
  split
  · rfl
  · by_cases hk : k = g <;> simp [hk]

theorem cap_alloc_slot_table (k : GroupId) (c : Int) :
    ((cap_alloc s g o r).1.groups k).slot_table c =
      if 0 ≤ r ∧ k = g ∧ c = r then some o else (s.groups k).slot_table c := by
  unfold cap_alloc
  by_cases hr : r < 0
  · have : ¬ 0 ≤ r := by omega
    simp [hr, this]
  · have h0 : 0 ≤ r := by omega
    by_cases hk : k = g <;> by_cases hc : c = r <;> simp [hr, h0, hk, hc]

@[simp] theorem cap_copy_snd : (cap_copy s src dst cap r).2 = r := by
  unfold cap_copy
  split <;> rfl

@[simp] theorem cap_copy_threads : (cap_copy s src dst cap r).1.threads = s.threads := by
  unfold cap_copy
  split <;> rfl

@[simp] theorem cap_copy_current_thread :
    (cap_copy s src dst cap r).1.current_thread = s.current_thread := by
  unfold cap_copy
  split <;> rfl

@[simp] theorem cap_copy_current_cap_group :
    (cap_copy s src dst cap r).1.current_cap_group = s.current_cap_group := by
  unfold cap_copy
  split <;> rfl

@[simp] theorem cap_copy_trace :
    (cap_copy s src dst cap r).1.trace = s.trace ++ [.cap_copy src dst cap r] := by
  unfold cap_copy
  split <;> rfl

@[simp] theorem cap_copy_thread_list (k : GroupId) :
    ((cap_copy s src dst cap r).1.groups k).thread_list = (s.groups k).thread_list := by
  unfold cap_copy
  split
  · rfl
  · by_cases hk : k = dst <;> simp [hk]

@[simp] theorem cap_copy_thread_cnt (k : GroupId) :
    ((cap_copy s src dst cap r).1.groups k).thread_cnt = (s.groups k).thread_cnt := by
  unfold cap_copy
  split
  · rfl
  · by_cases hk : k = dst <;> simp [hk]

theorem cap_copy_slot_table (k : GroupId) (c : Int) :
    ((cap_copy s src dst cap r).1.groups k).slot_table c =
      if 0 ≤ r ∧ k = dst ∧ c = r then (s.groups src).slot_table cap
      else (s.groups k).slot_table c := by
  unfold cap_copy
  by_cases hr : r < 0
  · have : ¬ 0 ≤ r := by omega
    simp [hr, this]
  · have h0 : 0 ≤ r := by omega
    by_cases hk : k = dst <;> by_cases hc : c = r <;> simp [hr, h0, hk, hc]

end cap_facts

section dispatch_facts

variable (env : CreateEnv) (s : KState) (t : ThreadId) (type : thread_type)
  (susp : Bool) (cap : Int)

@[simp] theorem dispatch_groups :
    (create_thread_dispatch env s t type susp cap).1.groups = s.groups := by
  unfold create_thread_dispatch
  cases susp <;> (repeat' split) <;> rfl

@[simp] theorem dispatch_current_cap_group :
    (create_thread_dispatch env s t type susp cap).1.current_cap_group
      = s.current_cap_group := by
  unfold create_thread_dispatch
  cases susp <;> (repeat' split) <;> rfl

@[simp] theorem dispatch_current_thread :
    (create_thread_dispatch env s t type susp cap).1.current_thread = s.current_thread := by
  unfold create_thread_dispatch
  cases susp <;> (repeat' split) <;> rfl

theorem dispatch_trace :
    (create_thread_dispatch env s t type susp cap).1.trace =
      s.trace ++ (if type = .TYPE_USER then [.sched_enqueue t] else []) := by
  unfold create_thread_dispatch
  cases susp <;> (repeat' split) <;> simp

theorem dispatch_outcome :
    (create_thread_dispatch env s t type susp cap).2 =
      if type = .TYPE_USER ∧ env.sched_enqueue ≠ 0 then .bug else .ret cap := by
  unfold create_thread_dispatch
  cases susp <;> (repeat' split) <;> simp_all

theorem dispatch_threads_ctx :
    ((create_thread_dispatch env s t type susp cap).1.threads t).thread_ctx =
      (s.threads t).thread_ctx.map (fun c =>
        if type = .TYPE_USER then
          { c with state := .TS_INTER, is_suspended := if susp then true else c.is_suspended }
        else if type = .TYPE_SHADOW ∨ type = .TYPE_REGISTER then { c with state := .TS_WAITING }
        else c) := by
  unfold create_thread_dispatch
  cases susp <;> (repeat' split) <;> cases h : (s.threads t).thread_ctx <;> simp_all

end dispatch_facts

section publish_facts

variable (env : CreateEnv) (s : KState) (g : GroupId) (t : ThreadId) (arg : Nat)
  (type : thread_type) (susp : Bool) (tls ctid : Nat)

@[simp] theorem publish_current_cap_group :
    (create_thread_publish env s g t arg type susp tls ctid).1.current_cap_group
      = s.current_cap_group := by
  unfold create_thread_publish
  simp only []
  split
  · simp
  · split <;> simp

@[simp] theorem publish_current_thread :
    (create_thread_publish env s g t arg type susp tls ctid).1.current_thread
      = s.current_thread := by
  unfold create_thread_publish
  simp only []
  split
  · simp
  · split <;> simp

theorem publish_thread_list (k : GroupId) :
    ((create_thread_publish env s g t arg type susp tls ctid).1.groups k).thread_list
      = if k = g then t :: (s.groups k).thread_list else (s.groups k).thread_list := by
  unfold create_thread_publish
  simp only []
  split
  · by_cases hk : k = g <;> simp [hk, list_add]
  · split <;> by_cases hk : k = g <;> simp [hk, list_add]

theorem publish_thread_cnt (k : GroupId) :
    ((create_thread_publish env s g t arg type susp tls ctid).1.groups k).thread_cnt
      = if k = g then (s.groups k).thread_cnt + 1 else (s.groups k).thread_cnt := by
  unfold create_thread_publish
  simp only []
  split
  · by_cases hk : k = g <;> simp [hk]
  · split <;> by_cases hk : k = g <;> simp [hk]

theorem publish_outcome :
    (create_thread_publish env s g t arg type susp tls ctid).2 =
      if env.cap_alloc < 0 then .ret env.cap_alloc
      else if type = .TYPE_USER ∧ env.sched_enqueue ≠ 0 then .bug
      else .ret (if g ≠ s.current_cap_group then env.cap_copy else env.cap_alloc) := by
  unfold create_thread_publish
  simp only []
  by_cases hca : env.cap_alloc < 0
  · simp [hca]
  · by_cases hg : g = s.current_cap_group <;> simp [hca, hg, dispatch_outcome]

theorem publish_trace :
    (create_thread_publish env s g t arg type susp tls ctid).1.trace =
      s.trace ++ [.unlock g, .cap_alloc g (.thread t) env.cap_alloc] ++
        (if env.cap_alloc < 0 then [.obj_free t]
         else
          (if g ≠ s.current_cap_group then
              [.cap_copy g s.current_cap_group env.cap_alloc env.cap_copy]
            else []) ++
          (if type = .TYPE_USER then [.sched_enqueue t] else [])) := by
  unfold create_thread_publish
  simp only []
  by_cases hca : env.cap_alloc < 0
  · simp [hca]
  · by_cases hg : g = s.current_cap_group <;> simp [hca, hg, dispatch_trace]

theorem publish_threads_ctx (h : 0 ≤ env.cap_alloc) :
    ((create_thread_publish env s g t arg type susp tls ctid).1.threads t).thread_ctx =
      (s.threads t).thread_ctx.map (fun c =>
        if type = .TYPE_USER then
          { c with arg0 := arg, tls := tls, state := .TS_INTER,
                   is_suspended := if susp then true else c.is_suspended }
        else if type = .TYPE_SHADOW ∨ type = .TYPE_REGISTER then
          { c with arg0 := arg, tls := tls, state := .TS_WAITING }
        else { c with arg0 := arg, tls := tls }) := by
  unfold create_thread_publish
  have hca : ¬ env.cap_alloc < 0 := by omega
  simp only []
  by_cases hg : g = s.current_cap_group <;>
    cases hc : (s.threads t).thread_ctx <;>
    simp [hca, hg, hc, dispatch_threads_ctx]

theorem publish_resolves (h : 0 ≤ env.cap_alloc)
    (hcc : g ≠ s.current_cap_group → 0 ≤ env.cap_copy) :
    ((create_thread_publish env s g t arg type susp tls ctid).1.groups
        s.current_cap_group).slot_table
      (if g ≠ s.current_cap_group then env.cap_copy else env.cap_alloc) = some (.thread t) := by
  unfold create_thread_publish
  have hca : ¬ env.cap_alloc < 0 := by omega
  simp only []
  by_cases hg : g = s.current_cap_group
  · simp [hca, hg, cap_alloc_slot_table, h]
  · have := hcc hg
    simp [hca, hg, cap_alloc_slot_table, cap_copy_slot_table, h, this]

end publish_facts

section locked_facts

variable (env : CreateEnv) (s : KState) (g : GroupId) (t : ThreadId) (arg : Nat)
  (type : thread_type) (susp : Bool) (tls ctid : Nat)

theorem locked_registry (k : GroupId) :
    (((create_thread_locked env s g t arg type susp tls ctid).1.groups k).thread_list
        = (s.groups k).thread_list ∧
      ((create_thread_locked env s g t arg type susp tls ctid).1.groups k).thread_cnt
        = (s.groups k).thread_cnt) ∨
    (k = g ∧
      ((create_thread_locked env s g t arg type susp tls ctid).1.groups k).thread_list
        = t :: (s.groups k).thread_list ∧
      ((create_thread_locked env s g t arg type susp tls ctid).1.groups k).thread_cnt
        = (s.groups k).thread_cnt + 1) := by
  unfold create_thread_locked
  simp only []
  split
  · left; simp
  · split
    · left; simp
    · by_cases hk : k = g
      · right
        simp [publish_thread_list, publish_thread_cnt, hk]
      · left
        simp [publish_thread_list, publish_thread_cnt, hk]

/-- The exiting path of `create_thread_locked`, as one equation. -/
theorem locked_exiting (cur : thread_ctx)
    (hcur : (s.threads s.current_thread).thread_ctx = some cur)
    (hex : cur.thread_exit_state = .TE_EXITING) :
    create_thread_locked env s g t arg type susp tls ctid =
      ({ s with trace := s.trace ++ [.lock g, .unlock g, .obj_free t, .obj_put (.cap_group g),
          .sched, .switch_context, .eret_to_thread] }, .noreturn) := by
  unfold create_thread_locked
  simp [hcur, hex, KState.emit]

/-- The publishing path of `create_thread_locked`, as one equation. -/
theorem locked_publishing (cur : thread_ctx)
    (hcur : (s.threads s.current_thread).thread_ctx = some cur)
    (hex : cur.thread_exit_state ≠ .TE_EXITING) :
    create_thread_locked env s g t arg type susp tls ctid =
      create_thread_publish env (s.emit (.lock g)) g t arg type susp tls ctid := by
  unfold create_thread_locked
  simp [hcur, hex]

end locked_facts

section create_facts

variable (cfg : Config) (env : CreateEnv) (s : KState) (g : GroupId)
  (stack pc arg : Nat) (prio : Int) (type : thread_type) (tls ctid : Nat)

/-- The three ways `create_thread` can go, as equations. -/
theorem create_thread_alloc_fail (h : env.obj_alloc = none) :
    create_thread cfg env s g stack pc arg prio type tls ctid =
      (s.emit (.obj_alloc none), .ret (-cfg.ENOMEM)) := by
  unfold create_thread
  simp [h]

theorem create_thread_init_fail (t : ThreadId) (h : env.obj_alloc = some t)
    (hok : env.create_thread_ctx = false) :
    create_thread cfg env s g stack pc arg prio type tls ctid =
      ((thread_init cfg false ((s.emit (.obj_alloc (some t))).set_thread t (fun _ => zero_thread))
          t g stack pc prio (if type = .TYPE_TRACEE then .TYPE_USER else type) cfg.NO_AFF).1.emit
        (.obj_free t), .ret (-cfg.ENOMEM)) := by
  have hpos := cfg.ENOMEM_pos
  have hne : cfg.ENOMEM ≠ 0 := by omega
  unfold create_thread
  simp [h, hok, hne]

theorem create_thread_init_ok (t : ThreadId) (h : env.obj_alloc = some t)
    (hok : env.create_thread_ctx = true) :
    create_thread cfg env s g stack pc arg prio type tls ctid =
      create_thread_locked env (create_thread_inited cfg s g stack pc prio type t) g t arg
        (if type = .TYPE_TRACEE then .TYPE_USER else type) (decide (type = .TYPE_TRACEE))
        tls ctid := by
  unfold create_thread create_thread_inited
  simp [h, hok]

@[simp] theorem inited_groups (t : ThreadId) :
    (create_thread_inited cfg s g stack pc prio type t).groups = s.groups := by
  simp [create_thread_inited]

@[simp] theorem inited_current_thread (t : ThreadId) :
    (create_thread_inited cfg s g stack pc prio type t).current_thread = s.current_thread := by
  simp [create_thread_inited]

@[simp] theorem inited_current_cap_group (t : ThreadId) :
    (create_thread_inited cfg s g stack pc prio type t).current_cap_group
      = s.current_cap_group := by
  simp [create_thread_inited]

@[simp] theorem inited_trace (t : ThreadId) :
    (create_thread_inited cfg s g stack pc prio type t).trace =
      s.trace ++ [.obj_alloc (some t), .obj_get (.cap_group g), .obj_get (.vmspace g),
        .obj_put (.cap_group g), .obj_put (.vmspace g)] := by
  simp [create_thread_inited]

theorem inited_threads_ne (t k : ThreadId) (hk : k ≠ t) :
    (create_thread_inited cfg s g stack pc prio type t).threads k = s.threads k := by
  unfold create_thread_inited
  rw [thread_init_threads_ne _ _ _ _ _ _ _ _ _ _ _ hk]
  simp [hk]

theorem inited_threads_ctx (t : ThreadId) :
    ((create_thread_inited cfg s g stack pc prio type t).threads t).thread_ctx =
      some (init_thread_ctx stack pc prio (if type = .TYPE_TRACEE then .TYPE_USER else type)
        cfg.NO_AFF) := by
  unfold create_thread_inited
  exact thread_init_threads_ctx _ _ _ _ _ _ _ _ _

/-- On every path `create_thread` either leaves list and counter of a group
alone or links the allocated thread at the head and adds one to the
counter. -/
theorem create_thread_registry (k : GroupId) :
    (((create_thread cfg env s g stack pc arg prio type tls ctid).1.groups k).thread_list
        = (s.groups k).thread_list ∧
      ((create_thread cfg env s g stack pc arg prio type tls ctid).1.groups k).thread_cnt
        = (s.groups k).thread_cnt) ∨
    (∃ t, env.obj_alloc = some t ∧ k = g ∧
      ((create_thread cfg env s g stack pc arg prio type tls ctid).1.groups k).thread_list
        = t :: (s.groups k).thread_list ∧
      ((create_thread cfg env s g stack pc arg prio type tls ctid).1.groups k).thread_cnt
        = (s.groups k).thread_cnt + 1) := by
  cases hoa : env.obj_alloc with
  | none =>
    left
    rw [create_thread_alloc_fail cfg env s g stack pc arg prio type tls ctid hoa]
    simp
  | some t =>
    cases hok : env.create_thread_ctx with
    | false =>
      left
      rw [create_thread_init_fail cfg env s g stack pc arg prio type tls ctid t hoa hok]
      simp
    | true =>
      rw [create_thread_init_ok cfg env s g stack pc arg prio type tls ctid t hoa hok]
      have h := locked_registry env (create_thread_inited cfg s g stack pc prio type t) g t arg
        (if type = .TYPE_TRACEE then .TYPE_USER else type) (decide (type = .TYPE_TRACEE))
        tls ctid k
      simp only [inited_groups] at h
      rcases h with h | ⟨hk, h1, h2⟩
      · exact Or.inl h
      · exact Or.inr ⟨t, rfl, hk, h1, h2⟩

/-- On every path `create_root_thread` either leaves list and counter of a
group alone or links the allocated thread at the head and adds one to the
counter. -/
theorem create_root_thread_registry (cpu : Int) (k : GroupId) :
    (((create_root_thread cfg env s g stack pc cpu).1.groups k).thread_list
        = (s.groups k).thread_list ∧
      ((create_root_thread cfg env s g stack pc cpu).1.groups k).thread_cnt
        = (s.groups k).thread_cnt) ∨
    (∃ t, env.obj_alloc = some t ∧ k = g ∧
      ((create_root_thread cfg env s g stack pc cpu).1.groups k).thread_list
        = t :: (s.groups k).thread_list ∧
      ((create_root_thread cfg env s g stack pc cpu).1.groups k).thread_cnt
        = (s.groups k).thread_cnt + 1) := by
  unfold create_root_thread
  cases hoa : env.obj_alloc with
  | none => left; simp
  | some t =>
    simp only []
    split
    · left; simp
    · by_cases hk : k = g
      · right
        refine ⟨t, rfl, hk, ?_, ?_⟩ <;>
          (repeat' split) <;> simp [hk, list_add]
      · left
        constructor <;> (repeat' split) <;> simp [hk, list_add]

end create_facts

section exit_facts

variable (s : KState)

theorem sys_thread_exit_thread_list (k : GroupId) :
    ((sys_thread_exit s).1.groups k).thread_list = (s.groups k).thread_list := by
  unfold sys_thread_exit
  split
  · rfl
  · simp only []
    (repeat' split) <;> by_cases hk : k = s.current_cap_group <;> simp [hk]

theorem sys_thread_exit_thread_cnt (k : GroupId) (c : thread_ctx)
    (hc : (s.threads s.current_thread).thread_ctx = some c) :
    ((sys_thread_exit s).1.groups k).thread_cnt =
      if k = s.current_cap_group then (s.groups k).thread_cnt - 1
      else (s.groups k).thread_cnt := by
  unfold sys_thread_exit
  rw [hc]
  simp only []
  (repeat' split) <;> simp_all

theorem sys_thread_exit_trace (c : thread_ctx)
    (hc : (s.threads s.current_thread).thread_ctx = some c) :
    (sys_thread_exit s).1.trace =
      s.trace ++ [.lock s.current_cap_group, .unlock s.current_cap_group] ++
        (if (s.groups s.current_cap_group).thread_cnt - 1 = 0 then [.sys_exit_group 0]
         else
          (if (s.threads s.current_thread).clear_child_tid ≠ 0 then
              [.copy_to_user (s.threads s.current_thread).clear_child_tid 0 sizeof_int,
               .sys_futex_wake (s.threads s.current_thread).clear_child_tid 0 1]
            else []) ++ [.sched, .switch_context, .eret_to_thread]) := by
  unfold sys_thread_exit
  rw [hc]
  simp only []
  by_cases h0 : (s.groups s.current_cap_group).thread_cnt - 1 = 0
  · simp [h0]
  · by_cases ht : (s.threads s.current_thread).clear_child_tid = 0 <;> simp [h0, ht]

theorem sys_thread_exit_outcome (c : thread_ctx)
    (hc : (s.threads s.current_thread).thread_ctx = some c) :
    (sys_thread_exit s).2 = .noreturn := by
  unfold sys_thread_exit
  rw [hc]
  simp only []
  (repeat' split) <;> rfl

theorem sys_thread_exit_ctx (c : thread_ctx)
    (hc : (s.threads s.current_thread).thread_ctx = some c) :
    ((sys_thread_exit s).1.threads s.current_thread).thread_ctx =
      some { c with thread_exit_state := .TE_EXITING } := by
  unfold sys_thread_exit
  rw [hc]
  simp only []
  (repeat' split) <;> simp [hc]

@[simp] theorem sys_thread_exit_current_thread :
    (sys_thread_exit s).1.current_thread = s.current_thread := by
  unfold sys_thread_exit
  split
  · rfl
  · simp only []
    (repeat' split) <;> rfl

@[simp] theorem sys_thread_exit_current_cap_group :
    (sys_thread_exit s).1.current_cap_group = s.current_cap_group := by
  unfold sys_thread_exit
  split
  · rfl
  · simp only []
    (repeat' split) <;> rfl

end exit_facts

section deinit_facts

variable (s : KState) (t : ThreadId)

theorem thread_deinit_thread_cnt (k : GroupId) :
    ((thread_deinit s t).1.groups k).thread_cnt = (s.groups k).thread_cnt := by
  unfold thread_deinit
  cases hc : (s.threads t).thread_ctx with
  | none => rfl
  | some c =>
    simp only []
    by_cases hex : c.thread_exit_state = .TE_EXITED
    · cases hg : (s.threads t).cap_group with
      | none => by_cases hst : c.state = .TS_EXIT <;> simp [hex, hst, hg]
      | some g =>
        cases hi : (s.threads t).general_ipc_config <;> by_cases hst : c.state = .TS_EXIT <;>
          by_cases hk : k = g <;> simp [hex, hst, hg, hi, hk]
    · simp [hex]

theorem thread_deinit_thread_list (k : GroupId) (h : (thread_deinit s t).2 = .ret ()) :
    ((thread_deinit s t).1.groups k).thread_list =
      if (s.threads t).cap_group = some k then list_del t (s.groups k).thread_list
      else (s.groups k).thread_list := by
  unfold thread_deinit at h ⊢
  cases hc : (s.threads t).thread_ctx with
  | none => simp [hc] at h
  | some c =>
    simp only [hc] at h ⊢
    by_cases hex : c.thread_exit_state = .TE_EXITED
    · cases hg : (s.threads t).cap_group with
      | none => by_cases hst : c.state = .TS_EXIT <;> simp [hex, hst, hg] at h
      | some g =>
        cases hi : (s.threads t).general_ipc_config <;> by_cases hst : c.state = .TS_EXIT <;>
          by_cases hk : k = g <;> simp [hex, hst, hg, hi, hk, @eq_comm _ g k]
    · simp [hex] at h

theorem thread_deinit_returns (c : thread_ctx) (g : GroupId)
    (hc : (s.threads t).thread_ctx = some c) (hex : c.thread_exit_state = .TE_EXITED)
    (hg : (s.threads t).cap_group = some g) : (thread_deinit s t).2 = .ret () := by
  unfold thread_deinit
  simp only [hc]
  cases hi : (s.threads t).general_ipc_config <;> by_cases hst : c.state = .TS_EXIT <;>
    simp [hex, hst, hg, hi]

/-- The list of every group after `thread_deinit`, on every path: the thread
is unlinked from the list of its own group when the call returns, and nothing
else changes. -/
theorem thread_deinit_thread_list_all (k : GroupId) :
    ((thread_deinit s t).1.groups k).thread_list =
      if (thread_deinit s t).2 = .ret () ∧ (s.threads t).cap_group = some k then
        list_del t (s.groups k).thread_list
      else (s.groups k).thread_list := by
  by_cases hret : (thread_deinit s t).2 = .ret ()
  · rw [thread_deinit_thread_list s t k hret]
    by_cases hg : (s.threads t).cap_group = some k
    · rw [if_pos hg, if_pos ⟨hret, hg⟩]
    · rw [if_neg hg, if_neg (fun h => hg h.2)]
  · rw [if_neg (fun h => hret h.1)]
    unfold thread_deinit at hret ⊢
    cases hc : (s.threads t).thread_ctx with
    | none => rfl
    | some c =>
      simp only [hc] at hret ⊢
      by_cases hex : c.thread_exit_state = .TE_EXITED
      · cases hg : (s.threads t).cap_group with
        | none => by_cases hst : c.state = .TS_EXIT <;> simp [hex, hst, hg]
        | some g =>
          exfalso
          apply hret
          cases hi : (s.threads t).general_ipc_config <;> by_cases hst : c.state = .TS_EXIT <;>
            simp [hex, hst, hg, hi]
      · simp [hex]

end deinit_facts

section exiting_caller

variable (cfg : Config) (env : CreateEnv) (s : KState) (g : GroupId)
  (stack pc arg : Nat) (prio : Int) (type : thread_type) (tls ctid : Nat)

/-- The whole result of `create_thread` when the caller is exiting and the
new thread object was allocated and initialised. -/
theorem create_thread_exiting (t : ThreadId) (cur : thread_ctx)
    (hoa : env.obj_alloc = some t) (hok : env.create_thread_ctx = true)
    (hne : t ≠ s.current_thread)
    (hcur : (s.threads s.current_thread).thread_ctx = some cur)
    (hex : cur.thread_exit_state = .TE_EXITING) :
    create_thread cfg env s g stack pc arg prio type tls ctid =
      ({ create_thread_inited cfg s g stack pc prio type t with
          trace := (create_thread_inited cfg s g stack pc prio type t).trace ++
            [.lock g, .unlock g, .obj_free t, .obj_put (.cap_group g), .sched,
             .switch_context, .eret_to_thread] }, .noreturn) := by
  rw [create_thread_init_ok cfg env s g stack pc arg prio type tls ctid t hoa hok]
  refine locked_exiting env _ g t arg _ _ tls ctid cur ?_ hex
  rw [inited_current_thread, inited_threads_ne cfg s g stack pc prio type t _ (Ne.symm hne)]
  exact hcur

/-- The events `create_thread` adds on each of the paths an exiting caller can
take. -/
theorem create_thread_exiting_events (cur : thread_ctx)
    (hne : env.obj_alloc ≠ some s.current_thread)
    (hcur : (s.threads s.current_thread).thread_ctx = some cur)
    (hex : cur.thread_exit_state = .TE_EXITING) :
    new_events s (create_thread cfg env s g stack pc arg prio type tls ctid).1 =
      match env.obj_alloc with
      | none => [.obj_alloc none]
      | some t =>
        [.obj_alloc (some t), .obj_get (.cap_group g), .obj_get (.vmspace g),
          .obj_put (.cap_group g), .obj_put (.vmspace g)] ++
        (if env.create_thread_ctx = true then
          [.lock g, .unlock g, .obj_free t, .obj_put (.cap_group g), .sched, .switch_context,
            .eret_to_thread]
         else [.obj_free t]) := by
  cases hoa : env.obj_alloc with
  | none =>
    rw [create_thread_alloc_fail cfg env s g stack pc arg prio type tls ctid hoa]
    apply new_events_append
    simp
  | some t =>
    have hts : t ≠ s.current_thread := fun e => hne (by rw [hoa, e])
    cases hok : env.create_thread_ctx with
    | false =>
      rw [create_thread_init_fail cfg env s g stack pc arg prio type tls ctid t hoa hok]
      apply new_events_append
      simp
    | true =>
      rw [create_thread_exiting cfg env s g stack pc arg prio type tls ctid t cur hoa hok hts
        hcur hex]
      apply new_events_append
      simp

/-- An exiting caller of `create_thread` changes no capability group. -/
theorem create_thread_exiting_groups (cur : thread_ctx)
    (hne : env.obj_alloc ≠ some s.current_thread)
    (hcur : (s.threads s.current_thread).thread_ctx = some cur)
    (hex : cur.thread_exit_state = .TE_EXITING) :
    (create_thread cfg env s g stack pc arg prio type tls ctid).1.groups = s.groups := by
  cases hoa : env.obj_alloc with
  | none =>
    rw [create_thread_alloc_fail cfg env s g stack pc arg prio type tls ctid hoa]
    simp
  | some t =>
    have hts : t ≠ s.current_thread := fun e => hne (by rw [hoa, e])
    cases hok : env.create_thread_ctx with
    | false =>
      rw [create_thread_init_fail cfg env s g stack pc arg prio type tls ctid t hoa hok]
      simp
    | true =>
      rw [create_thread_exiting cfg env s g stack pc arg prio type tls ctid t cur hoa hok hts
        hcur hex]
      simp

/-- An exiting caller of `create_thread` gets no capability back. -/
theorem create_thread_exiting_outcome (cur : thread_ctx)
    (hne : env.obj_alloc ≠ some s.current_thread)
    (hcur : (s.threads s.current_thread).thread_ctx = some cur)
    (hex : cur.thread_exit_state = .TE_EXITING) :
    (create_thread cfg env s g stack pc arg prio type tls ctid).2 = .ret (-cfg.ENOMEM) ∨
    (create_thread cfg env s g stack pc arg prio type tls ctid).2 = .noreturn := by
  cases hoa : env.obj_alloc with
  | none =>
    rw [create_thread_alloc_fail cfg env s g stack pc arg prio type tls ctid hoa]
    exact Or.inl rfl
  | some t =>
    have hts : t ≠ s.current_thread := fun e => hne (by rw [hoa, e])
    cases hok : env.create_thread_ctx with
    | false =>
      rw [create_thread_init_fail cfg env s g stack pc arg prio type tls ctid t hoa hok]
      exact Or.inl rfl
    | true =>
      rw [create_thread_exiting cfg env s g stack pc arg prio type tls ctid t cur hoa hok hts
        hcur hex]
      exact Or.inr rfl

end exiting_caller

/-! ## C1: counter and list length -/

/-- C2, evaluation at the failing input: thread 1 of group 0 creates a thread
in its own group and `cap_alloc` answers `-12`.  The call returns `-12`, yet
the freed thread object 3 stays linked in `thread_list` and `thread_cnt` went
from 1 to 2.  Second input: thread 2 of group 1 creates a thread in group 0
and `cap_copy` answers `-12`; the call returns `-12` with the thread
registered in group 0 and handed to `sched_enqueue`. -/
theorem create_thread_failure_leaves_thread_registered :
    ((demo_state.groups 0).thread_list = [1] ∧ (demo_state.groups 0).thread_cnt = 1) ∧
    ((create_thread demo_cfg demo_env_cap_alloc_fails demo_state 0 4096 64 0 10 .TYPE_USER
        0 0).2 = .ret (-12) ∧
      ((create_thread demo_cfg demo_env_cap_alloc_fails demo_state 0 4096 64 0 10 .TYPE_USER
        0 0).1.groups 0).thread_list = [3, 1] ∧
      ((create_thread demo_cfg demo_env_cap_alloc_fails demo_state 0 4096 64 0 10 .TYPE_USER
        0 0).1.groups 0).thread_cnt = 2 ∧
      Event.obj_free 3 ∈ new_events demo_state
        (create_thread demo_cfg demo_env_cap_alloc_fails demo_state 0 4096 64 0 10 .TYPE_USER
          0 0).1) ∧
    ((create_thread demo_cfg demo_env_cap_copy_fails demo_state_thread2 0 4096 64 0 10
        .TYPE_USER 0 0).2 = .ret (-12) ∧
      ((create_thread demo_cfg demo_env_cap_copy_fails demo_state_thread2 0 4096 64 0 10
        .TYPE_USER 0 0).1.groups 0).thread_list = [3, 1] ∧
      ((create_thread demo_cfg demo_env_cap_copy_fails demo_state_thread2 0 4096 64 0 10
        .TYPE_USER 0 0).1.groups 0).thread_cnt = 2 ∧
      Event.sched_enqueue 3 ∈ new_events demo_state_thread2
        (create_thread demo_cfg demo_env_cap_copy_fails demo_state_thread2 0 4096 64 0 10
          .TYPE_USER 0 0).1) := by
  decide

/-! ## C3: create after the counter reached zero -/

/-- C3, counterexample: thread 1, the only thread of group 0, calls
`sys_thread_exit`; the counter of group 0 reaches 0 and `sys_exit_group` is
called.  Later thread 2 of group 1, which is not exiting, creates a thread in
group 0: the new thread 3 is linked into the list of group 0, the counter goes
back to 1, `cap_alloc` hands out slot 5 and the call returns capability 7. -/
theorem create_after_zero_from_other_group_publishes :
    ((sys_thread_exit demo_state).1.groups 0).thread_cnt = 0 ∧
    Event.sys_exit_group 0 ∈ (sys_thread_exit demo_state).1.trace ∧
    (demo_state_after_exit.groups 0).thread_cnt = 0 ∧
    ((create_thread demo_cfg demo_env demo_state_after_exit 0 4096 64 0 10 .TYPE_USER
        0 0).1.groups 0).thread_list = [3, 1] ∧
    ((create_thread demo_cfg demo_env demo_state_after_exit 0 4096 64 0 10 .TYPE_USER
        0 0).1.groups 0).thread_cnt = 1 ∧
    Event.cap_alloc 0 (.thread 3) 5 ∈ new_events demo_state_after_exit
      (create_thread demo_cfg demo_env demo_state_after_exit 0 4096 64 0 10 .TYPE_USER
        0 0).1 ∧
    (create_thread demo_cfg demo_env demo_state_after_exit 0 4096 64 0 10 .TYPE_USER
        0 0).2 = .ret 7 := by
  decide

/-- C3, amended: `sys_thread_exit` leaves its caller in exit state
`TE_EXITING` (and brings a counter that was 1 to zero); and every create made
by a calling thread whose exit state is `TE_EXITING`, whatever group it
targets and whatever the collaborators answer, publishes no new member: no
group's `thread_list`, `thread_cnt` or slot table changes, `cap_alloc` is not
called, and no capability is returned. -/
theorem exiting_caller_create_publishes_nothing (cfg : Config) (env : CreateEnv)
    (s : KState) (cur : thread_ctx)
    (hcur : (s.threads s.current_thread).thread_ctx = some cur)
    (hex : cur.thread_exit_state = .TE_EXITING)
    (hne : env.obj_alloc ≠ some s.current_thread) :
    (∀ (s0 : KState) (c0 : thread_ctx),
      (s0.threads s0.current_thread).thread_ctx = some c0 →
        ((sys_thread_exit s0).1.threads (sys_thread_exit s0).1.current_thread).thread_ctx
            = some { c0 with thread_exit_state := .TE_EXITING } ∧
        ((s0.groups s0.current_cap_group).thread_cnt = 1 →
          ((sys_thread_exit s0).1.groups s0.current_cap_group).thread_cnt = 0)) ∧
    (∀ (target : GroupId) (stack pc arg : Nat) (prio : Int) (type : thread_type)
        (tls ctid : Nat),
      (∀ k : GroupId,
        ((create_thread cfg env s target stack pc arg prio type tls ctid).1.groups k).thread_list
            = (s.groups k).thread_list ∧
        ((create_thread cfg env s target stack pc arg prio type tls ctid).1.groups k).thread_cnt
            = (s.groups k).thread_cnt ∧
        ((create_thread cfg env s target stack pc arg prio type tls ctid).1.groups k).slot_table
            = (s.groups k).slot_table) ∧
      (∀ (k : GroupId) (o : Obj) (r : Int),
        Event.cap_alloc k o r ∉
          new_events s (create_thread cfg env s target stack pc arg prio type tls ctid).1) ∧
      (∀ cap : Int, 0 ≤ cap →
        (create_thread cfg env s target stack pc arg prio type tls ctid).2 ≠ .ret cap)) := by
  constructor
  · intro s0 c0 h0
    refine ⟨?_, ?_⟩
    · rw [sys_thread_exit_current_thread]
      exact sys_thread_exit_ctx s0 c0 h0
    · intro h1
      rw [sys_thread_exit_thread_cnt s0 _ c0 h0, if_pos rfl, h1]
      rfl
  · intro target stack pc arg prio type tls ctid
    refine ⟨?_, ?_, ?_⟩
    · intro k
      rw [create_thread_exiting_groups cfg env s target stack pc arg prio type tls ctid cur hne
        hcur hex]
      exact ⟨rfl, rfl, rfl⟩
    · intro k o r
      rw [create_thread_exiting_events cfg env s target stack pc arg prio type tls ctid cur hne
        hcur hex]
      cases env.obj_alloc with
      | none => simp
      | some t => cases env.create_thread_ctx <;> simp
    · intro cap hcap
      have hpos := cfg.ENOMEM_pos
      rcases create_thread_exiting_outcome cfg env s target stack pc arg prio type tls ctid cur
        hne hcur hex with h | h
      · rw [h]
        intro hc
        injection hc with hc
        omega
      · rw [h]
        intro hc
        cases hc

/-- C3, witness: the amended statement at `demo_state_exiting`, where the
running thread 1 is exiting and creates a thread in its own group 0. -/
theorem exiting_caller_create_publishes_nothing_witness :
    (demo_state_exiting.threads demo_state_exiting.current_thread).thread_ctx
      = some { init_thread_ctx 4096 64 10 .TYPE_USER 0 with
                state := .TS_INTER, thread_exit_state := .TE_EXITING } ∧
    ((create_thread demo_cfg demo_env demo_state_exiting 0 4096 64 0 10 .TYPE_USER
        0 0).1.groups 0).thread_list = (demo_state_exiting.groups 0).thread_list ∧
    ((create_thread demo_cfg demo_env demo_state_exiting 0 4096 64 0 10 .TYPE_USER
        0 0).1.groups 0).thread_cnt = (demo_state_exiting.groups 0).thread_cnt :=
  ⟨by decide,
    (((exiting_caller_create_publishes_nothing demo_cfg demo_env demo_state_exiting
      { init_thread_ctx 4096 64 10 .TYPE_USER 0 with
          state := .TS_INTER, thread_exit_state := .TE_EXITING }
      (by decide) rfl (by decide)).2 0 4096 64 0 10 .TYPE_USER 0 0).1 0).1,
    (((exiting_caller_create_publishes_nothing demo_cfg demo_env demo_state_exiting
      { init_thread_ctx 4096 64 10 .TYPE_USER 0 with
          state := .TS_INTER, thread_exit_state := .TE_EXITING }
      (by decide) rfl (by decide)).2 0 4096 64 0 10 .TYPE_USER 0 0).1 0).2.1⟩

/-! ## C4: create by an exiting caller -/

/-- C4: when `create_thread` is called while the calling thread's exit state is
`TE_EXITING`, and the thread object `t` was allocated and initialised, the call
does not return; no group's `thread_list`, `thread_cnt` or slot table changes;
the calls made are, in order, the allocation, the four reference calls of
`thread_init`, `lock`, `unlock`, `obj_free t`, `obj_put` of the group, `sched`,
`switch_context` and `eret_to_thread`; neither `cap_alloc` nor `sched_enqueue`
is among them; and the group is released once more than it was acquired. -/
theorem create_thread_by_exiting_caller (cfg : Config) (env : CreateEnv) (s : KState)
    (g : GroupId) (stack pc arg : Nat) (prio : Int) (type : thread_type) (tls ctid : Nat)
    (t : ThreadId) (cur : thread_ctx)
    (hoa : env.obj_alloc = some t) (hok : env.create_thread_ctx = true)
    (hne : t ≠ s.current_thread)
    (hcur : (s.threads s.current_thread).thread_ctx = some cur)
    (hex : cur.thread_exit_state = .TE_EXITING) :
    (create_thread cfg env s g stack pc arg prio type tls ctid).2 = .noreturn ∧
    (∀ k : GroupId,
      ((create_thread cfg env s g stack pc arg prio type tls ctid).1.groups k).thread_list
          = (s.groups k).thread_list ∧
      ((create_thread cfg env s g stack pc arg prio type tls ctid).1.groups k).thread_cnt
          = (s.groups k).thread_cnt ∧
      ((create_thread cfg env s g stack pc arg prio type tls ctid).1.groups k).slot_table
          = (s.groups k).slot_table) ∧
    new_events s (create_thread cfg env s g stack pc arg prio type tls ctid).1 =
      [.obj_alloc (some t), .obj_get (.cap_group g), .obj_get (.vmspace g),
        .obj_put (.cap_group g), .obj_put (.vmspace g), .lock g, .unlock g, .obj_free t,
        .obj_put (.cap_group g), .sched, .switch_context, .eret_to_thread] ∧
    (∀ (k : GroupId) (o : Obj) (r : Int),
      Event.cap_alloc k o r ∉
        new_events s (create_thread cfg env s g stack pc arg prio type tls ctid).1) ∧
    (∀ u : ThreadId,
      Event.sched_enqueue u ∉
        new_events s (create_thread cfg env s g stack pc arg prio type tls ctid).1) ∧
    (new_events s (create_thread cfg env s g stack pc arg prio type tls ctid).1).count
        (.obj_put (.cap_group g))
      = (new_events s (create_thread cfg env s g stack pc arg prio type tls ctid).1).count
        (.obj_get (.cap_group g)) + 1 := by
  have hev : new_events s (create_thread cfg env s g stack pc arg prio type tls ctid).1 =
      [.obj_alloc (some t), .obj_get (.cap_group g), .obj_get (.vmspace g),
        .obj_put (.cap_group g), .obj_put (.vmspace g), .lock g, .unlock g, .obj_free t,
        .obj_put (.cap_group g), .sched, .switch_context, .eret_to_thread] := by
    rw [create_thread_exiting cfg env s g stack pc arg prio type tls ctid t cur hoa hok hne
      hcur hex]
    apply new_events_append
    simp
  refine ⟨?_, ?_, hev, ?_, ?_, ?_⟩
  · rw [create_thread_exiting cfg env s g stack pc arg prio type tls ctid t cur hoa hok hne
      hcur hex]
  · intro k
    rw [create_thread_exiting cfg env s g stack pc arg prio type tls ctid t cur hoa hok hne
      hcur hex]
    simp
  · intro k o r
    rw [hev]
    simp
  · intro u
    rw [hev]
    simp
  · rw [hev]
    simp [List.count_cons]

/-- C4, witness: the statement at `demo_state_exiting`, whose running thread 1
is exiting, for a create into group 0 that was given thread object 3. -/
theorem create_thread_by_exiting_caller_witness :
    (demo_env.obj_alloc = some 3 ∧ demo_env.create_thread_ctx = true ∧
      (3 : ThreadId) ≠ demo_state_exiting.current_thread) ∧
    (create_thread demo_cfg demo_env demo_state_exiting 0 4096 64 0 10 .TYPE_USER 0 0).2
      = .noreturn :=
  ⟨by decide,
    (create_thread_by_exiting_caller demo_cfg demo_env demo_state_exiting 0 4096 64 0 10
      .TYPE_USER 0 0 3
      { init_thread_ctx 4096 64 10 .TYPE_USER 0 with
          state := .TS_INTER, thread_exit_state := .TE_EXITING }
      rfl rfl (by decide) (by decide) rfl).1⟩

/-! ## C5: successful create -/

section success_facts

variable (cfg : Config) (env : CreateEnv) (s : KState) (g : GroupId)
  (stack pc arg : Nat) (prio : Int) (type : thread_type) (tls ctid : Nat)

/-- A `create_thread` that returns a capability went through
`create_thread_publish`, with every collaborator answering success. -/
theorem create_thread_success (t : ThreadId) (cap : Int) (hoa : env.obj_alloc = some t)
    (hret : (create_thread cfg env s g stack pc arg prio type tls ctid).2 = .ret cap)
    (hcap : 0 ≤ cap) :
    env.create_thread_ctx = true ∧ 0 ≤ env.cap_alloc ∧
    cap = (if g ≠ s.current_cap_group then env.cap_copy else env.cap_alloc) ∧
    create_thread cfg env s g stack pc arg prio type tls ctid =
      create_thread_publish env ((create_thread_inited cfg s g stack pc prio type t).emit
        (.lock g)) g t arg (if type = .TYPE_TRACEE then .TYPE_USER else type)
        (decide (type = .TYPE_TRACEE)) tls ctid := by
  have hpos := cfg.ENOMEM_pos
  cases hok : env.create_thread_ctx with
  | false =>
    rw [create_thread_init_fail cfg env s g stack pc arg prio type tls ctid t hoa hok] at hret
    injection hret with hret
    omega
  | true =>
    rw [create_thread_init_ok cfg env s g stack pc arg prio type tls ctid t hoa hok] at hret ⊢
    cases hc : ((create_thread_inited cfg s g stack pc prio type t).threads
        (create_thread_inited cfg s g stack pc prio type t).current_thread).thread_ctx with
    | none =>
      simp only [inited_current_thread] at hc
      simp [create_thread_locked, hc] at hret
    | some cur =>
      by_cases hex : cur.thread_exit_state = .TE_EXITING
      · rw [locked_exiting env _ g t arg _ _ tls ctid cur hc hex] at hret
        cases hret
      · rw [locked_publishing env _ g t arg _ _ tls ctid cur hc hex] at hret ⊢
        rw [publish_outcome] at hret
        by_cases hca : env.cap_alloc < 0
        · rw [if_pos hca] at hret
          injection hret with hret
          omega
        · rw [if_neg hca] at hret
          by_cases hb : (if type = .TYPE_TRACEE then thread_type.TYPE_USER else type)
              = .TYPE_USER ∧ env.sched_enqueue ≠ 0
          · rw [if_pos hb] at hret
            cases hret
          · rw [if_neg hb] at hret
            injection hret with hret
            refine ⟨rfl, by omega, ?_, rfl⟩
            rw [← hret]
            simp

end success_facts

section success_registry

variable (cfg : Config) (env : CreateEnv) (s : KState) (g : GroupId)
  (stack pc arg : Nat) (prio : Int) (type : thread_type) (tls ctid : Nat)

/-- What a `create_thread` that returns a capability did to the target group
and to the creator's capability table. -/
theorem create_thread_success_registry (t : ThreadId) (cap : Int)
    (hoa : env.obj_alloc = some t)
    (hret : (create_thread cfg env s g stack pc arg prio type tls ctid).2 = .ret cap)
    (hcap : 0 ≤ cap) :
    ((create_thread cfg env s g stack pc arg prio type tls ctid).1.groups g).thread_list
        = t :: (s.groups g).thread_list ∧
    ((create_thread cfg env s g stack pc arg prio type tls ctid).1.groups g).thread_cnt
        = (s.groups g).thread_cnt + 1 ∧
    obj_get_thread (create_thread cfg env s g stack pc arg prio type tls ctid).1
      s.current_cap_group cap = some t := by
  obtain ⟨_, hca, hcapeq, heq⟩ :=
    create_thread_success cfg env s g stack pc arg prio type tls ctid t cap hoa hret hcap
  refine ⟨?_, ?_, ?_⟩
  · rw [heq, publish_thread_list]
    simp
  · rw [heq, publish_thread_cnt]
    simp
  · have hres := publish_resolves env
      ((create_thread_inited cfg s g stack pc prio type t).emit (.lock g)) g t arg
      (if type = .TYPE_TRACEE then .TYPE_USER else type) (decide (type = .TYPE_TRACEE))
      tls ctid hca
    simp only [emit_current_cap_group, inited_current_cap_group] at hres
    have hcc : g ≠ s.current_cap_group → 0 ≤ env.cap_copy := by
      intro hg
      rw [if_pos hg] at hcapeq
      omega
    have hres := hres hcc
    unfold obj_get_thread
    rw [heq, hcapeq, hres]

/-- A `create_thread` that returns a capability was handed a thread object. -/
theorem create_thread_success_alloc (cap : Int)
    (hret : (create_thread cfg env s g stack pc arg prio type tls ctid).2 = .ret cap)
    (hcap : 0 ≤ cap) : ∃ t, env.obj_alloc = some t := by
  cases hoa : env.obj_alloc with
  | none =>
    have hpos := cfg.ENOMEM_pos
    rw [create_thread_alloc_fail cfg env s g stack pc arg prio type tls ctid hoa] at hret
    injection hret with hret
    omega
  | some t => exact ⟨t, rfl⟩

/-- What a `create_root_thread` that comes back did to the root group and its
capability table; its `BUG_ON` checks passed. -/
theorem create_root_thread_success (cpu : Int) (t : ThreadId)
    (hoa : env.obj_alloc = some t)
    (hret : (create_root_thread cfg env s g stack pc cpu).2 = .ret ()) :
    ((create_root_thread cfg env s g stack pc cpu).1.groups g).thread_list
        = t :: (s.groups g).thread_list ∧
    ((create_root_thread cfg env s g stack pc cpu).1.groups g).thread_cnt
        = (s.groups g).thread_cnt + 1 ∧
    ((create_root_thread cfg env s g stack pc cpu).1.groups g).thread_cnt ≠ 0 ∧
    0 < env.cap_alloc ∧
    obj_get_thread (create_root_thread cfg env s g stack pc cpu).1 g env.cap_alloc
      = some t := by
  unfold create_root_thread at hret ⊢
  simp only [hoa] at hret ⊢
  split at hret
  · cases hret
  · rename_i hinit
    simp only [if_neg hinit]
    split at hret
    · cases hret
    · rename_i hneg
      simp only [if_neg hneg]
      split at hret
      · cases hret
      · rename_i htest
        simp only [htest, Bool.false_eq_true, if_false]
        split at hret
        · cases hret
        · rename_i rt hrt
          split at hret
          · cases hret
          · rename_i hse
            simp only [if_neg hse]
            simp only [cap_alloc_snd, Bool.not_eq_true] at hneg htest hrt
            simp only [test_root_thread_after_create, Bool.or_eq_false_iff,
              decide_eq_false_iff_not, cap_alloc_thread_cnt] at htest
            have hn : ((((((thread_init cfg env.create_thread_ctx
                  ((s.emit (.obj_alloc (some t))).set_thread t (fun _ => zero_thread)) t g
                  stack pc cfg.DEFAULT_PRIO .TYPE_USER cpu).1.emit (.lock g)).set_group g
                  (fun cg => { cg with thread_list := list_add t cg.thread_list })).set_group g
                  (fun cg => { cg with thread_cnt := cg.thread_cnt + 1 })).emit
                  (.unlock g)).groups g).thread_cnt
                = (s.groups g).thread_cnt + 1 := by
              simp
            simp only [emit_groups, cap_alloc_thread_list, cap_alloc_thread_cnt]
            refine ⟨?_, hn, ?_, ?_, ?_⟩
            · simp [list_add]
            · exact htest.1
            · have := htest.2
              omega
            · unfold obj_get_thread
              simp only [emit_groups]
              rw [cap_alloc_slot_table]
              have h0 : 0 ≤ env.cap_alloc := by omega
              simp [h0]

end success_registry

/-- C6: `sys_thread_exit` does not return; it sets the caller's exit state to
`TE_EXITING` and lowers the counter of the caller's group by exactly one;
`sys_exit_group` is called if and only if the lowered counter is zero, and then
the calls made are exactly `lock`, `unlock`, `sys_exit_group(0)`: no write to
user memory, no futex wake, no scheduler call.  A group whose counter was 1
gets the teardown. -/
theorem sys_thread_exit_effects (s : KState) (c : thread_ctx)
    (hc : (s.threads s.current_thread).thread_ctx = some c) :
    (sys_thread_exit s).2 = .noreturn ∧
    ((sys_thread_exit s).1.threads s.current_thread).thread_ctx
      = some { c with thread_exit_state := .TE_EXITING } ∧
    ((sys_thread_exit s).1.groups s.current_cap_group).thread_cnt
      = (s.groups s.current_cap_group).thread_cnt - 1 ∧
    ((∃ code, Event.sys_exit_group code ∈ new_events s (sys_thread_exit s).1) ↔
      ((sys_thread_exit s).1.groups s.current_cap_group).thread_cnt = 0) ∧
    (((sys_thread_exit s).1.groups s.current_cap_group).thread_cnt = 0 →
      new_events s (sys_thread_exit s).1 =
        [.lock s.current_cap_group, .unlock s.current_cap_group, .sys_exit_group 0] ∧
      (∀ (a : Nat) (v : Int) (n : Nat),
        Event.copy_to_user a v n ∉ new_events s (sys_thread_exit s).1) ∧
      (∀ (a : Nat) (o v : Int),
        Event.sys_futex_wake a o v ∉ new_events s (sys_thread_exit s).1)) ∧
    ((s.groups s.current_cap_group).thread_cnt = 1 →
      Event.sys_exit_group 0 ∈ new_events s (sys_thread_exit s).1) := by
  have hcnt := sys_thread_exit_thread_cnt s s.current_cap_group c hc
  rw [if_pos rfl] at hcnt
  have hev : new_events s (sys_thread_exit s).1 =
      [.lock s.current_cap_group, .unlock s.current_cap_group] ++
        (if (s.groups s.current_cap_group).thread_cnt - 1 = 0 then [.sys_exit_group 0]
         else
          (if (s.threads s.current_thread).clear_child_tid ≠ 0 then
              [.copy_to_user (s.threads s.current_thread).clear_child_tid 0 sizeof_int,
               .sys_futex_wake (s.threads s.current_thread).clear_child_tid 0 1]
            else []) ++ [.sched, .switch_context, .eret_to_thread]) := by
    apply new_events_append
    rw [sys_thread_exit_trace s c hc, List.append_assoc]
  refine ⟨sys_thread_exit_outcome s c hc, sys_thread_exit_ctx s c hc, hcnt, ?_, ?_, ?_⟩
  · rw [hev, hcnt]
    by_cases h0 : (s.groups s.current_cap_group).thread_cnt - 1 = 0
    · simp [h0]
    · by_cases ht : (s.threads s.current_thread).clear_child_tid = 0 <;> simp [h0, ht]
  · intro h0
    rw [hcnt] at h0
    rw [hev, if_pos h0]
    simp
  · intro h1
    have h0 : (s.groups s.current_cap_group).thread_cnt - 1 = 0 := by omega
    rw [hev, if_pos h0]
    simp

/-- C6, witness: thread 1, the only thread of group 0 in `demo_state`, exits. -/
theorem sys_thread_exit_effects_witness :
    (demo_state.threads demo_state.current_thread).thread_ctx
      = some { init_thread_ctx 4096 64 10 .TYPE_USER 0 with state := .TS_INTER } ∧
    ((sys_thread_exit demo_state).1.groups demo_state.current_cap_group).thread_cnt
      = (demo_state.groups demo_state.current_cap_group).thread_cnt - 1 ∧
    (demo_state.groups demo_state.current_cap_group).thread_cnt = 1 ∧
    Event.sys_exit_group 0 ∈ new_events demo_state (sys_thread_exit demo_state).1 :=
  ⟨by decide,
    (sys_thread_exit_effects demo_state
      { init_thread_ctx 4096 64 10 .TYPE_USER 0 with state := .TS_INTER } (by decide)).2.2.1,
    by decide,
    (sys_thread_exit_effects demo_state
      { init_thread_ctx 4096 64 10 .TYPE_USER 0 with state := .TS_INTER }
      (by decide)).2.2.2.2.2 (by decide)⟩

/-- C7: when `sys_thread_exit` is called by a thread that is not the last one
of its group (the lowered counter is not zero), then with a clear-on-exit
address registered the calls made are `lock`, `unlock`, the `copy_to_user` of
an `int` zero to that address, `sys_futex_wake` on that address with count 1,
`sched`, `switch_context`, `eret_to_thread`; with no address registered they
are `lock`, `unlock`, `sched`, `switch_context`, `eret_to_thread`; the call
does not return.  The address is
the one `sys_set_tid_address` stored. -/
theorem sys_thread_exit_not_last (s : KState) (c : thread_ctx)
    (hc : (s.threads s.current_thread).thread_ctx = some c)
    (hnz : (s.groups s.current_cap_group).thread_cnt - 1 ≠ 0) :
    ((s.threads s.current_thread).clear_child_tid ≠ 0 →
      new_events s (sys_thread_exit s).1 =
        [.lock s.current_cap_group, .unlock s.current_cap_group,
         .copy_to_user (s.threads s.current_thread).clear_child_tid 0 sizeof_int,
         .sys_futex_wake (s.threads s.current_thread).clear_child_tid 0 1,
         .sched, .switch_context, .eret_to_thread]) ∧
    ((s.threads s.current_thread).clear_child_tid = 0 →
      new_events s (sys_thread_exit s).1 =
        [.lock s.current_cap_group, .unlock s.current_cap_group, .sched, .switch_context,
         .eret_to_thread]) ∧
    (sys_thread_exit s).2 = .noreturn ∧
    (∀ tidptr : Nat,
      ((sys_set_tid_address s tidptr).1.threads s.current_thread).clear_child_tid = tidptr ∧
      (sys_set_tid_address s tidptr).2 = .ret 0) := by
  refine ⟨?_, ?_, sys_thread_exit_outcome s c hc, ?_⟩
  · intro ht
    apply new_events_append
    rw [sys_thread_exit_trace s c hc, if_neg hnz, if_pos ht]
    simp
  · intro ht
    apply new_events_append
    rw [sys_thread_exit_trace s c hc, if_neg hnz, if_neg (not_not.mpr ht)]
    simp
  · intro tidptr
    simp [sys_set_tid_address]

/-- C7, witness: thread 1 exits from a two-thread group after registering the
clear-on-exit address 4660. -/
theorem sys_thread_exit_not_last_witness :
    (((demo_state_two_threads 4660).threads
        (demo_state_two_threads 4660).current_thread).thread_ctx
      = some { init_thread_ctx 4096 64 10 .TYPE_USER 0 with state := .TS_INTER } ∧
      ((demo_state_two_threads 4660).groups
        (demo_state_two_threads 4660).current_cap_group).thread_cnt - 1 ≠ 0 ∧
      ((demo_state_two_threads 4660).threads
        (demo_state_two_threads 4660).current_thread).clear_child_tid ≠ 0) ∧
    new_events (demo_state_two_threads 4660) (sys_thread_exit (demo_state_two_threads 4660)).1 =
      [.lock 0, .unlock 0, .copy_to_user 4660 0 4, .sys_futex_wake 4660 0 1, .sched,
       .switch_context, .eret_to_thread] :=
  ⟨by decide,
    (sys_thread_exit_not_last (demo_state_two_threads 4660)
      { init_thread_ctx 4096 64 10 .TYPE_USER 0 with state := .TS_INTER } (by decide)
      (by decide)).1 (by decide)⟩

/-! ## C8: dispatch on the thread type -/

section dispatch_on_type

variable (cfg : Config) (env : CreateEnv) (s : KState) (g : GroupId)
  (stack pc arg : Nat) (prio : Int) (type : thread_type) (tls ctid : Nat)

/-- The calls a successful `create_thread` makes, in order. -/
theorem create_thread_success_events (t : ThreadId) (cap : Int)
    (hoa : env.obj_alloc = some t)
    (hret : (create_thread cfg env s g stack pc arg prio type tls ctid).2 = .ret cap)
    (hcap : 0 ≤ cap) :
    new_events s (create_thread cfg env s g stack pc arg prio type tls ctid).1 =
      [.obj_alloc (some t), .obj_get (.cap_group g), .obj_get (.vmspace g),
        .obj_put (.cap_group g), .obj_put (.vmspace g), .lock g, .unlock g,
        .cap_alloc g (.thread t) env.cap_alloc] ++
      ((if g ≠ s.current_cap_group then
          [.cap_copy g s.current_cap_group env.cap_alloc env.cap_copy]
        else []) ++
       (if (if type = .TYPE_TRACEE then thread_type.TYPE_USER else type) = .TYPE_USER then
          [.sched_enqueue t]
        else [])) := by
  obtain ⟨_, hca, _, heq⟩ :=
    create_thread_success cfg env s g stack pc arg prio type tls ctid t cap hoa hret hcap
  have hca2 : ¬ env.cap_alloc < 0 := by omega
  apply new_events_append
  rw [heq, publish_trace, if_neg hca2]
  simp

/-- The context of the new thread after a successful `create_thread`. -/
theorem create_thread_success_ctx (t : ThreadId) (cap : Int)
    (hoa : env.obj_alloc = some t)
    (hret : (create_thread cfg env s g stack pc arg prio type tls ctid).2 = .ret cap)
    (hcap : 0 ≤ cap) :
    ((create_thread cfg env s g stack pc arg prio type tls ctid).1.threads t).thread_ctx =
      (some (init_thread_ctx stack pc prio
          (if type = .TYPE_TRACEE then .TYPE_USER else type) cfg.NO_AFF)).map (fun c =>
        if (if type = .TYPE_TRACEE then thread_type.TYPE_USER else type) = .TYPE_USER then
          { c with arg0 := arg, tls := tls, state := .TS_INTER,
                   is_suspended :=
                     if decide (type = .TYPE_TRACEE) then true else c.is_suspended }
        else if (if type = .TYPE_TRACEE then thread_type.TYPE_USER else type) = .TYPE_SHADOW ∨
            (if type = .TYPE_TRACEE then thread_type.TYPE_USER else type) = .TYPE_REGISTER then
          { c with arg0 := arg, tls := tls, state := .TS_WAITING }
        else { c with arg0 := arg, tls := tls }) := by
  obtain ⟨_, hca, _, heq⟩ :=
    create_thread_success cfg env s g stack pc arg prio type tls ctid t cap hoa hret hcap
  rw [heq, publish_threads_ctx env _ g t arg _ _ tls ctid hca]
  simp only [emit_threads]
  rw [inited_threads_ctx]

end dispatch_on_type

/-- C8: after a successful `create_thread` the context of the new thread `t`
and the enqueue decision follow the requested type.  `TYPE_USER`: state
`TS_INTER`, `is_suspended` still false as initialised, `t` passed to
`sched_enqueue`.  `TYPE_TRACEE`: the thread is initialised with type
`TYPE_USER`, state `TS_INTER`, `is_suspended` true, `t` passed to
`sched_enqueue`.  `TYPE_SHADOW` and `TYPE_REGISTER`: state `TS_WAITING` and no
`sched_enqueue` call at all. -/
theorem create_thread_type_dispatch (cfg : Config) (env : CreateEnv) (s : KState)
    (g : GroupId) (stack pc arg : Nat) (prio : Int) (type : thread_type) (tls ctid : Nat)
    (t : ThreadId) (cap : Int) (hoa : env.obj_alloc = some t)
    (hret : (create_thread cfg env s g stack pc arg prio type tls ctid).2 = .ret cap)
    (hcap : 0 ≤ cap) :
    (type = .TYPE_USER →
      (((create_thread cfg env s g stack pc arg prio type tls ctid).1.threads t).thread_ctx.map
          (fun c => (c.type, c.state, c.is_suspended))
        = some (.TYPE_USER, .TS_INTER, false)) ∧
      Event.sched_enqueue t ∈
        new_events s (create_thread cfg env s g stack pc arg prio type tls ctid).1) ∧
    (type = .TYPE_TRACEE →
      (((create_thread cfg env s g stack pc arg prio type tls ctid).1.threads t).thread_ctx.map
          (fun c => (c.type, c.state, c.is_suspended))
        = some (.TYPE_USER, .TS_INTER, true)) ∧
      Event.sched_enqueue t ∈
        new_events s (create_thread cfg env s g stack pc arg prio type tls ctid).1) ∧
    (type = .TYPE_SHADOW ∨ type = .TYPE_REGISTER →
      (((create_thread cfg env s g stack pc arg prio type tls ctid).1.threads t).thread_ctx.map
          (fun c => (c.type, c.state))
        = some (type, .TS_WAITING)) ∧
      ∀ u : ThreadId, Event.sched_enqueue u ∉
        new_events s (create_thread cfg env s g stack pc arg prio type tls ctid).1) := by
  have hctx := create_thread_success_ctx cfg env s g stack pc arg prio type tls ctid t cap hoa
    hret hcap
  have hev := create_thread_success_events cfg env s g stack pc arg prio type tls ctid t cap hoa
    hret hcap
  refine ⟨?_, ?_, ?_⟩
  · intro hty
    subst hty
    rw [hctx, hev]
    simp [init_thread_ctx]
  · intro hty
    subst hty
    rw [hctx, hev]
    simp [init_thread_ctx]
  · intro hty
    rw [hctx, hev]
    rcases hty with hty | hty <;> subst hty <;>
      by_cases hg : g = s.current_cap_group <;> simp [init_thread_ctx, hg]

/-- C8, witness: thread 1 of group 0 creates a tracee in its own group. -/
theorem create_thread_type_dispatch_witness :
    (demo_env.obj_alloc = some 3 ∧
      (create_thread demo_cfg demo_env demo_state 0 4096 64 0 10 .TYPE_TRACEE 0 0).2 = .ret 5 ∧
      (0 : Int) ≤ 5) ∧
    (((create_thread demo_cfg demo_env demo_state 0 4096 64 0 10 .TYPE_TRACEE
        0 0).1.threads 3).thread_ctx.map (fun c => (c.type, c.state, c.is_suspended))
      = some (.TYPE_USER, .TS_INTER, true)) ∧
    Event.sched_enqueue 3 ∈ new_events demo_state
      (create_thread demo_cfg demo_env demo_state 0 4096 64 0 10 .TYPE_TRACEE 0 0).1 :=
  ⟨by decide,
    (create_thread_type_dispatch demo_cfg demo_env demo_state 0 4096 64 0 10 .TYPE_TRACEE 0 0
      3 5 rfl (by decide) (by decide)).2.1 rfl⟩

/-! ## C9: affinity range check -/

/-- C9, counterexample: with four cores, the running thread of `demo_state`
has affinity 0 and asks for affinity `-1` for itself; `sys_set_affinity`
returns 0 and the affinity is now `-1`. -/
theorem sys_set_affinity_accepts_negative :
    (demo_state.threads 1).thread_ctx.map (fun c => c.affinity) = some 0 ∧
    (sys_set_affinity demo_cfg demo_state 0 (-1)).2 = .ret 0 ∧
    ((sys_set_affinity demo_cfg demo_state 0 (-1)).1.threads 1).thread_ctx.map
      (fun c => c.affinity) = some (-1) := by
  decide

/-- C9, amended: for every target and every requested affinity that is at
least `PLAT_CPU_NUM`, `sys_set_affinity` returns `-EINVAL`, a negative code,
and leaves the whole state, the target's affinity included, as it was. -/
theorem sys_set_affinity_rejects_high (cfg : Config) (s : KState) (thread_cap aff : Int)
    (haff : cfg.PLAT_CPU_NUM ≤ aff) :
    sys_set_affinity cfg s thread_cap aff = (s, .ret (-cfg.EINVAL)) ∧ -cfg.EINVAL < 0 := by
  have hpos := cfg.EINVAL_pos
  refine ⟨?_, by omega⟩
  unfold sys_set_affinity
  rw [if_pos (ge_iff_le.mpr haff)]

/-- C9, witness: affinity 4 on a four-core configuration, for the calling
thread and for a capability. -/
theorem sys_set_affinity_rejects_high_witness :
    demo_cfg.PLAT_CPU_NUM ≤ 4 ∧
    (sys_set_affinity demo_cfg demo_state 0 4).2 = .ret (-22) ∧
    (sys_set_affinity demo_cfg demo_state 2 4).2 = .ret (-22) :=
  ⟨by decide,
    congrArg Prod.snd (sys_set_affinity_rejects_high demo_cfg demo_state 0 4 (by decide)).1,
    congrArg Prod.snd (sys_set_affinity_rejects_high demo_cfg demo_state 2 4 (by decide)).1⟩

/-! ## C10: priority -/

/-- C10: `sys_set_prio` returns `-EINVAL` if and only if the target is not the
calling thread or `prio ≤ 0` or `prio > MAX_PRIO`, and then the state is left
as it was; otherwise it returns 0 and `sys_get_prio(0)` on the resulting state
returns that `prio`.  With `0 < MIN_PRIO ≤ MAX_PRIO` both `MIN_PRIO` and
`MAX_PRIO` are accepted and read back. -/
theorem sys_set_prio_contract (cfg : Config) (s : KState) (thread_cap prio : Int)
    (c : thread_ctx) (hc : (s.threads s.current_thread).thread_ctx = some c)
    (hmin : 0 < cfg.MIN_PRIO) (hle : cfg.MIN_PRIO ≤ cfg.MAX_PRIO) :
    ((sys_set_prio cfg s thread_cap prio).2 = .ret (-cfg.EINVAL) ↔
      (thread_cap ≠ 0 ∨ prio ≤ 0 ∨ prio > cfg.MAX_PRIO)) ∧
    ((thread_cap ≠ 0 ∨ prio ≤ 0 ∨ prio > cfg.MAX_PRIO) →
      (sys_set_prio cfg s thread_cap prio).1 = s) ∧
    (¬ (thread_cap ≠ 0 ∨ prio ≤ 0 ∨ prio > cfg.MAX_PRIO) →
      (sys_set_prio cfg s thread_cap prio).2 = .ret 0 ∧
      (sys_get_prio cfg (sys_set_prio cfg s thread_cap prio).1 0).2 = .ret prio) ∧
    ((sys_set_prio cfg s 0 cfg.MIN_PRIO).2 = .ret 0 ∧
      (sys_get_prio cfg (sys_set_prio cfg s 0 cfg.MIN_PRIO).1 0).2 = .ret cfg.MIN_PRIO) ∧
    ((sys_set_prio cfg s 0 cfg.MAX_PRIO).2 = .ret 0 ∧
      (sys_get_prio cfg (sys_set_prio cfg s 0 cfg.MAX_PRIO).1 0).2 = .ret cfg.MAX_PRIO) := by
  have hpos := cfg.EINVAL_pos
  have hok : ∀ p : Int, 0 < p → p ≤ cfg.MAX_PRIO →
      (sys_set_prio cfg s 0 p).2 = .ret 0 ∧
      (sys_get_prio cfg (sys_set_prio cfg s 0 p).1 0).2 = .ret p := by
    intro p hp0 hpm
    have h2 : ¬ (p ≤ 0 ∨ p > cfg.MAX_PRIO) := by omega
    unfold sys_set_prio sys_get_prio
    simp [h2, hc]
  have hbad : (thread_cap ≠ 0 ∨ prio ≤ 0 ∨ prio > cfg.MAX_PRIO) →
      sys_set_prio cfg s thread_cap prio = (s, .ret (-cfg.EINVAL)) := by
    intro h
    unfold sys_set_prio
    by_cases h1 : thread_cap ≠ 0
    · rw [if_pos h1]
    · have h2 : prio ≤ 0 ∨ prio > cfg.MAX_PRIO := by
        rcases h with h | h
        · exact absurd h h1
        · exact h
      rw [if_neg h1, if_pos h2]
  have hgood : ¬ (thread_cap ≠ 0 ∨ prio ≤ 0 ∨ prio > cfg.MAX_PRIO) →
      (sys_set_prio cfg s thread_cap prio).2 = .ret 0 ∧
      (sys_get_prio cfg (sys_set_prio cfg s thread_cap prio).1 0).2 = .ret prio := by
    intro h
    have h1 : thread_cap = 0 := by
      by_contra h1
      exact h (Or.inl h1)
    subst h1
    exact hok prio (by omega) (by omega)
  refine ⟨⟨?_, ?_⟩, ?_, hgood, hok _ hmin hle, hok _ (by omega) (le_refl _)⟩
  · intro hret
    by_contra h
    rw [(hgood h).1] at hret
    injection hret with hret
    omega
  · intro h
    rw [hbad h]
  · intro h
    rw [hbad h]

/-- C10, witness: priorities 1 to 255; the running thread of `demo_state` sets
priority 255 and reads it back. -/
theorem sys_set_prio_contract_witness :
    ((demo_state.threads demo_state.current_thread).thread_ctx
      = some { init_thread_ctx 4096 64 10 .TYPE_USER 0 with state := .TS_INTER } ∧
      0 < demo_cfg.MIN_PRIO ∧ demo_cfg.MIN_PRIO ≤ demo_cfg.MAX_PRIO) ∧
    ((sys_set_prio demo_cfg demo_state 0 255).2 = .ret 0 ∧
      (sys_get_prio demo_cfg (sys_set_prio demo_cfg demo_state 0 255).1 0).2 = .ret 255) :=
  ⟨by decide,
    (sys_set_prio_contract demo_cfg demo_state 0 255
      { init_thread_ctx 4096 64 10 .TYPE_USER 0 with state := .TS_INTER }
      (by decide) (by decide) (by decide)).2.2.1 (by decide)⟩

/-! ## C11: rejections of `sys_create_thread` -/

theorem new_events_self (s : KState) : new_events s s = [] := by
  simp [new_events]

/-- C11: `sys_create_thread` returns `-EINVAL`, a negative code, when the type
tag of the argument block is none of user, shadow, register, tracee, or when
its priority is below `MIN_PRIO` or above `MAX_PRIO`; when the block was copied
in, type and priority are valid and the target-group capability does not
resolve to a capability group, it returns `-ECAPBILITY`, a negative code.  In
each of these cases the state is returned as it was: no collaborator is called
(no `obj_alloc`, no `sched_enqueue`), and no group's `thread_list` or
`thread_cnt` changes. -/
theorem sys_create_thread_rejects_before_mutation (cfg : Config) (env : CreateEnv)
    (range_check copy_ret : Int) (args : thread_args) (s : KState) :
    (((args.type ≠ .TYPE_USER ∧ args.type ≠ .TYPE_SHADOW ∧ args.type ≠ .TYPE_REGISTER ∧
          args.type ≠ .TYPE_TRACEE) ∨
        (args.prio : Int) < cfg.MIN_PRIO ∨ cfg.MAX_PRIO < (args.prio : Int)) →
      (sys_create_thread cfg env range_check copy_ret args s).2 = .ret (-cfg.EINVAL) ∧
      (sys_create_thread cfg env range_check copy_ret args s).1 = s ∧
      new_events s (sys_create_thread cfg env range_check copy_ret args s).1 = []) ∧
    (range_check = 0 → copy_ret = 0 →
      (args.type = .TYPE_USER ∨ args.type = .TYPE_SHADOW ∨ args.type = .TYPE_REGISTER ∨
        args.type = .TYPE_TRACEE) →
      cfg.MIN_PRIO ≤ (args.prio : Int) → (args.prio : Int) ≤ cfg.MAX_PRIO →
      obj_get_cap_group s s.current_cap_group args.cap_group_cap = none →
      (sys_create_thread cfg env range_check copy_ret args s).2 = .ret (-cfg.ECAPBILITY) ∧
      (sys_create_thread cfg env range_check copy_ret args s).1 = s ∧
      new_events s (sys_create_thread cfg env range_check copy_ret args s).1 = []) ∧
    -cfg.EINVAL < 0 ∧ -cfg.ECAPBILITY < 0 := by
  have hE := cfg.EINVAL_pos
  have hC := cfg.ECAPBILITY_pos
  refine ⟨?_, ?_, by omega, by omega⟩
  · intro hbad
    have heq : sys_create_thread cfg env range_check copy_ret args s
        = (s, .ret (-cfg.EINVAL)) := by
      unfold sys_create_thread
      by_cases h1 : range_check ≠ 0
      · rw [if_pos h1]
      · rw [if_neg h1]
        by_cases h2 : copy_ret ≠ 0
        · rw [if_pos h2]
        · rw [if_neg h2]
          simp only []
          by_cases h3 : args.type ≠ .TYPE_USER ∧ args.type ≠ .TYPE_SHADOW ∧
              args.type ≠ .TYPE_REGISTER ∧ args.type ≠ .TYPE_TRACEE
          · rw [if_pos h3]
          · rw [if_neg h3]
            have h4 : (args.prio : Int) > cfg.MAX_PRIO ∨ (args.prio : Int) < cfg.MIN_PRIO := by
              rcases hbad with h | h | h
              · exact absurd h h3
              · exact Or.inr h
              · exact Or.inl h
            rw [if_pos h4]
    rw [heq]
    exact ⟨rfl, rfl, new_events_self s⟩
  · intro h1 h2 hty hmin hmax hcap
    have heq : sys_create_thread cfg env range_check copy_ret args s
        = (s, .ret (-cfg.ECAPBILITY)) := by
      unfold sys_create_thread
      have h3 : ¬ (args.type ≠ .TYPE_USER ∧ args.type ≠ .TYPE_SHADOW ∧
          args.type ≠ .TYPE_REGISTER ∧ args.type ≠ .TYPE_TRACEE) := by
        rintro ⟨a, b, c, d⟩
        rcases hty with h | h | h | h
        · exact a h
        · exact b h
        · exact c h
        · exact d h
      have h4 : ¬ ((args.prio : Int) > cfg.MAX_PRIO ∨ (args.prio : Int) < cfg.MIN_PRIO) := by
        omega
      simp only [h1, h2, ne_eq, not_true_eq_false, if_false, if_neg h3, if_neg h4, hcap]
    rw [heq]
    exact ⟨rfl, rfl, new_events_self s⟩

/-- C11, witness: thread 2 of group 1 passes a block with an unknown type tag,
one with priority 256 (above 255), and one whose capability names a thread. -/
theorem sys_create_thread_rejects_before_mutation_witness :
    ((demo_args_bad_type.type ≠ .TYPE_USER ∧ demo_args_bad_type.type ≠ .TYPE_SHADOW ∧
        demo_args_bad_type.type ≠ .TYPE_REGISTER ∧ demo_args_bad_type.type ≠ .TYPE_TRACEE) ∧
      (sys_create_thread demo_cfg demo_env 0 0 demo_args_bad_type demo_state_thread2).2
        = .ret (-22)) ∧
    (demo_cfg.MAX_PRIO < (demo_args_bad_prio.prio : Int) ∧
      (sys_create_thread demo_cfg demo_env 0 0 demo_args_bad_prio demo_state_thread2).2
        = .ret (-22)) ∧
    (obj_get_cap_group demo_state_thread2 demo_state_thread2.current_cap_group
        demo_args_bad_cap.cap_group_cap = none ∧
      (sys_create_thread demo_cfg demo_env 0 0 demo_args_bad_cap demo_state_thread2).2
        = .ret (-60) ∧
      new_events demo_state_thread2
        (sys_create_thread demo_cfg demo_env 0 0 demo_args_bad_cap demo_state_thread2).1
        = []) :=
  ⟨⟨by decide,
      ((sys_create_thread_rejects_before_mutation demo_cfg demo_env 0 0 demo_args_bad_type
        demo_state_thread2).1 (Or.inl (by decide))).1⟩,
    ⟨by decide,
      ((sys_create_thread_rejects_before_mutation demo_cfg demo_env 0 0 demo_args_bad_prio
        demo_state_thread2).1 (Or.inr (Or.inr (by decide)))).1⟩,
    by decide,
    ((sys_create_thread_rejects_before_mutation demo_cfg demo_env 0 0 demo_args_bad_cap
      demo_state_thread2).2.1 rfl rfl (Or.inl rfl) (by decide) (by decide) (by decide)).1,
    ((sys_create_thread_rejects_before_mutation demo_cfg demo_env 0 0 demo_args_bad_cap
      demo_state_thread2).2.1 rfl rfl (Or.inl rfl) (by decide) (by decide) (by decide)).2.2⟩

/-! ## C12: the exit state only moves forward -/

section exit_state_facts

variable (cfg : Config) (env : CreateEnv) (s : KState)

theorem sys_thread_exit_threads_ne (k : ThreadId) (hk : k ≠ s.current_thread) :
    (sys_thread_exit s).1.threads k = s.threads k := by
  unfold sys_thread_exit
  cases hc : (s.threads s.current_thread).thread_ctx with
  | none => rfl
  | some c =>
    simp only []
    by_cases h0 : (s.groups s.current_cap_group).thread_cnt - 1 = 0
    · simp [h0, hk]
    · by_cases ht : (s.threads s.current_thread).clear_child_tid = 0 <;> simp [h0, ht, hk]

theorem sys_thread_exit_bug_state (hc : (s.threads s.current_thread).thread_ctx = none) :
    (sys_thread_exit s).1 = s := by
  unfold sys_thread_exit
  rw [hc]

theorem thread_deinit_threads (t : ThreadId) : (thread_deinit s t).1.threads = s.threads := by
  unfold thread_deinit
  cases hc : (s.threads t).thread_ctx with
  | none => rfl
  | some c =>
    simp only []
    by_cases hex : c.thread_exit_state = .TE_EXITED
    · cases hg : (s.threads t).cap_group with
      | none => by_cases hst : c.state = .TS_EXIT <;> simp [hex, hst, hg]
      | some g =>
        cases hi : (s.threads t).general_ipc_config <;> by_cases hst : c.state = .TS_EXIT <;>
          simp [hex, hst, hg, hi]
    · simp [hex]

theorem sys_set_affinity_exit_state (thread_cap aff : Int) (k : ThreadId) :
    exit_state_of (sys_set_affinity cfg s thread_cap aff).1 k = exit_state_of s k := by
  unfold sys_set_affinity exit_state_of
  by_cases ha : aff ≥ cfg.PLAT_CPU_NUM
  · rw [if_pos ha]
  · rw [if_neg ha]
    simp only []
    by_cases h0 : thread_cap = 0
    · cases hc : (s.threads s.current_thread).thread_ctx with
      | none => simp [h0, hc]
      | some c =>
        by_cases hk : k = s.current_thread
        · simp [h0, hc, hk]
        · simp [h0, hc, hk]
    · cases ho : obj_get_thread s s.current_cap_group thread_cap with
      | none => simp [h0, ho]
      | some t =>
        cases hc : (s.threads t).thread_ctx with
        | none => simp [h0, ho, hc]
        | some c =>
          by_cases hk : k = t
          · simp [h0, ho, hc, hk]
          · simp [h0, ho, hc, hk]

theorem sys_set_prio_exit_state (thread_cap prio : Int) (k : ThreadId) :
    exit_state_of (sys_set_prio cfg s thread_cap prio).1 k = exit_state_of s k := by
  unfold sys_set_prio exit_state_of
  by_cases h1 : thread_cap ≠ 0
  · rw [if_pos h1]
  · rw [if_neg h1]
    by_cases h2 : prio ≤ 0 ∨ prio > cfg.MAX_PRIO
    · rw [if_pos h2]
    · rw [if_neg h2]
      cases hc : (s.threads s.current_thread).thread_ctx with
      | none => rfl
      | some c =>
        by_cases hk : k = s.current_thread
        · simp [hc, hk]
        · simp [hk]

theorem sys_set_tid_address_exit_state (tidptr : Nat) (k : ThreadId) :
    exit_state_of (sys_set_tid_address s tidptr).1 k = exit_state_of s k := by
  unfold sys_set_tid_address exit_state_of
  by_cases hk : k = s.current_thread
  · simp [hk]
  · simp [hk]

end exit_state_facts

section create_threads_facts

variable (cfg : Config) (env : CreateEnv) (s : KState) (g : GroupId)
  (stack pc arg : Nat) (prio : Int) (type : thread_type) (tls ctid : Nat)

theorem dispatch_threads_ne (t k : ThreadId) (susp : Bool) (cap : Int) (hk : k ≠ t) :
    (create_thread_dispatch env s t type susp cap).1.threads k = s.threads k := by
  unfold create_thread_dispatch
  cases susp <;> (repeat' split) <;> simp [hk]

theorem publish_threads_ne (t k : ThreadId) (susp : Bool) (hk : k ≠ t) :
    (create_thread_publish env s g t arg type susp tls ctid).1.threads k = s.threads k := by
  unfold create_thread_publish
  simp only []
  split
  · simp [hk]
  · rw [dispatch_threads_ne env _ type t k susp _ hk]
    split <;> simp [hk]

theorem locked_threads_ne (t k : ThreadId) (susp : Bool) (hk : k ≠ t) :
    (create_thread_locked env s g t arg type susp tls ctid).1.threads k = s.threads k := by
  unfold create_thread_locked
  simp only []
  split
  · rfl
  · split
    · rfl
    · rw [publish_threads_ne env _ g arg type tls ctid t k susp hk]
      rfl

/-- The `create_thread` of the source writes to no thread object other than
the one `obj_alloc` handed out. -/
theorem create_thread_threads_ne (k : ThreadId) (hk : env.obj_alloc ≠ some k) :
    (create_thread cfg env s g stack pc arg prio type tls ctid).1.threads k = s.threads k := by
  cases hoa : env.obj_alloc with
  | none =>
    rw [create_thread_alloc_fail cfg env s g stack pc arg prio type tls ctid hoa]
    rfl
  | some t =>
    have hkt : k ≠ t := fun e => hk (by rw [hoa, e])
    cases hok : env.create_thread_ctx with
    | false =>
      rw [create_thread_init_fail cfg env s g stack pc arg prio type tls ctid t hoa hok]
      simp only [emit_threads]
      rw [thread_init_threads_ne _ _ _ _ _ _ _ _ _ _ _ hkt]
      simp [hkt]
    | true =>
      rw [create_thread_init_ok cfg env s g stack pc arg prio type tls ctid t hoa hok,
        locked_threads_ne env _ g arg _ tls ctid t k _ hkt,
        inited_threads_ne cfg s g stack pc prio type t k hkt]

/-- The `sys_create_thread` of the source writes to no thread object other
than the one `obj_alloc` handed out. -/
theorem sys_create_thread_threads_ne (range_check copy_ret : Int) (args : thread_args)
    (k : ThreadId) (hk : env.obj_alloc ≠ some k) :
    (sys_create_thread cfg env range_check copy_ret args s).1.threads k = s.threads k := by
  unfold sys_create_thread
  by_cases h1 : range_check ≠ 0
  · rw [if_pos h1]
  · rw [if_neg h1]
    by_cases h2 : copy_ret ≠ 0
    · rw [if_pos h2]
    · rw [if_neg h2]
      simp only []
      by_cases h3 : args.type ≠ .TYPE_USER ∧ args.type ≠ .TYPE_SHADOW ∧
          args.type ≠ .TYPE_REGISTER ∧ args.type ≠ .TYPE_TRACEE
      · rw [if_pos h3]
      · rw [if_neg h3]
        by_cases h4 : (args.prio : Int) > cfg.MAX_PRIO ∨ (args.prio : Int) < cfg.MIN_PRIO
        · rw [if_pos h4]
        · rw [if_neg h4]
          cases hcap : obj_get_cap_group s s.current_cap_group args.cap_group_cap with
          | none => rfl
          | some cg =>
            simp only []
            have h := create_thread_threads_ne cfg env (s.emit (.obj_get (.cap_group cg))) cg
              args.stack args.pc args.arg args.prio args.type args.tls args.clear_child_tid
              k hk
            revert h
            generalize create_thread cfg env (s.emit (.obj_get (.cap_group cg))) cg
              args.stack args.pc args.arg args.prio args.type args.tls args.clear_child_tid = r
            intro h
            obtain ⟨s2, o⟩ := r
            cases o <;> simpa using h

/-- The `create_root_thread` of the source writes to no thread object other
than the one `obj_alloc` handed out. -/
theorem create_root_thread_threads_ne (cpu : Int) (k : ThreadId)
    (hk : env.obj_alloc ≠ some k) :
    (create_root_thread cfg env s g stack pc cpu).1.threads k = s.threads k := by
  unfold create_root_thread
  cases hoa : env.obj_alloc with
  | none => rfl
  | some t =>
    have hkt : k ≠ t := fun e => hk (by rw [hoa, e])
    have hin := thread_init_threads_ne cfg env.create_thread_ctx
      ((s.emit (.obj_alloc (some t))).set_thread t (fun _ => zero_thread)) t g stack pc
      cfg.DEFAULT_PRIO .TYPE_USER cpu k hkt
    simp only []
    (repeat' split) <;> simp [hin, hkt]

end create_threads_facts

section read_only_calls

variable (cfg : Config) (s : KState)

theorem sys_get_affinity_threads (thread_cap : Int) :
    (sys_get_affinity cfg s thread_cap).1.threads = s.threads := by
  unfold sys_get_affinity
  simp only []
  by_cases h0 : thread_cap = 0
  · cases hc : (s.threads s.current_thread).thread_ctx <;> simp [h0, hc]
  · cases ho : obj_get_thread s s.current_cap_group thread_cap with
    | none => simp [h0, ho]
    | some t => cases hc : (s.threads t).thread_ctx <;> simp [h0, ho, hc]

theorem sys_get_prio_threads (thread_cap : Int) :
    (sys_get_prio cfg s thread_cap).1.threads = s.threads := by
  unfold sys_get_prio
  by_cases h0 : thread_cap ≠ 0
  · rw [if_pos h0]
  · rw [if_neg h0]
    cases hc : (s.threads s.current_thread).thread_ctx <;> rfl

end read_only_calls

/-- C12, counterexample: in `demo_state_exited` the running thread 1 has exit
state `TE_EXITED`; `sys_thread_exit` writes `TE_EXITING` to it, which is
earlier in the order `TE_NONE < TE_EXITING < TE_EXITED`. -/
theorem sys_thread_exit_moves_exited_back :
    exit_state_of demo_state_exited demo_state_exited.current_thread = some .TE_EXITED ∧
    exit_state_of (sys_thread_exit demo_state_exited).1 demo_state_exited.current_thread
      = some .TE_EXITING ∧
    exit_rank .TE_EXITING < exit_rank .TE_EXITED := by
  decide

/-- C12, amended: after `sys_thread_exit` the exit state of the calling thread
is `TE_EXITING` and the exit state of every other thread is what it was; so
when the calling thread had not reached `TE_EXITED`, the exit state of every
thread after the call is not earlier than the one before it in the order
`TE_NONE < TE_EXITING < TE_EXITED`.  The other operations of the file do not
write the field: `thread_deinit`, the affinity, priority and tid-address calls
leave every thread's exit state as it was, and so do `create_thread`,
`sys_create_thread` and `create_root_thread` for every thread other than the
object `obj_alloc` hands out to them. -/
theorem thread_exit_state_only_advances (cfg : Config) (env : CreateEnv) (s : KState) :
    (∀ (k : ThreadId) (e : thread_exit_state), exit_state_of s k = some e →
      exit_state_of (sys_thread_exit s).1 k
        = some (if k = s.current_thread then .TE_EXITING else e)) ∧
    (exit_state_of s s.current_thread ≠ some .TE_EXITED →
      ∀ (k : ThreadId) (e : thread_exit_state), exit_state_of s k = some e →
        exit_rank e ≤ exit_rank (if k = s.current_thread then .TE_EXITING else e)) ∧
    (∀ k t : ThreadId, exit_state_of (thread_deinit s t).1 k = exit_state_of s k) ∧
    (∀ (k : ThreadId) (thread_cap v : Int),
      exit_state_of (sys_set_affinity cfg s thread_cap v).1 k = exit_state_of s k ∧
      exit_state_of (sys_get_affinity cfg s thread_cap).1 k = exit_state_of s k ∧
      exit_state_of (sys_set_prio cfg s thread_cap v).1 k = exit_state_of s k ∧
      exit_state_of (sys_get_prio cfg s thread_cap).1 k = exit_state_of s k) ∧
    (∀ (k : ThreadId) (tidptr : Nat),
      exit_state_of (sys_set_tid_address s tidptr).1 k = exit_state_of s k) ∧
    (∀ k : ThreadId, env.obj_alloc ≠ some k →
      (∀ (g : GroupId) (stack pc arg : Nat) (prio : Int) (type : thread_type)
          (tls ctid : Nat),
        exit_state_of (create_thread cfg env s g stack pc arg prio type tls ctid).1 k
          = exit_state_of s k) ∧
      (∀ (range_check copy_ret : Int) (args : thread_args),
        exit_state_of (sys_create_thread cfg env range_check copy_ret args s).1 k
          = exit_state_of s k) ∧
      (∀ (g : GroupId) (stack entry : Nat) (cpu : Int),
        exit_state_of (create_root_thread cfg env s g stack entry cpu).1 k
          = exit_state_of s k)) := by
  refine ⟨?_, ?_, ?_, ?_, ?_, ?_⟩
  · intro k e he
    by_cases hk : k = s.current_thread
    · subst hk
      rw [if_pos rfl]
      unfold exit_state_of at he ⊢
      cases hc : (s.threads s.current_thread).thread_ctx with
      | none => simp [hc] at he
      | some c =>
        rw [sys_thread_exit_ctx s c hc]
        rfl
    · rw [if_neg hk]
      unfold exit_state_of at he ⊢
      rw [sys_thread_exit_threads_ne s k hk]
      exact he
  · intro hrun k e he
    by_cases hk : k = s.current_thread
    · subst hk
      rw [if_pos rfl]
      have hne : e ≠ .TE_EXITED := by
        intro h
        apply hrun
        rw [he, h]
      cases e
      · decide
      · decide
      · exact absurd rfl hne
    · rw [if_neg hk]
  · intro k t
    unfold exit_state_of
    rw [thread_deinit_threads]
  · intro k thread_cap v
    refine ⟨sys_set_affinity_exit_state cfg s thread_cap v k, ?_,
      sys_set_prio_exit_state cfg s thread_cap v k, ?_⟩
    · unfold exit_state_of
      rw [sys_get_affinity_threads]
    · unfold exit_state_of
      rw [sys_get_prio_threads]
  · intro k tidptr
    exact sys_set_tid_address_exit_state s tidptr k
  · intro k hk
    refine ⟨?_, ?_, ?_⟩
    · intro g stack pc arg prio type tls ctid
      unfold exit_state_of
      rw [create_thread_threads_ne cfg env s g stack pc arg prio type tls ctid k hk]
    · intro range_check copy_ret args
      unfold exit_state_of
      rw [sys_create_thread_threads_ne cfg env s range_check copy_ret args k hk]
    · intro g stack entry cpu
      unfold exit_state_of
      rw [create_root_thread_threads_ne cfg env s g stack entry cpu k hk]

/-- C12, witness: in `demo_state` the running thread 1 has exit state
`TE_NONE`; after its `sys_thread_exit` it is `TE_EXITING`, and thread 2 is
still at `TE_NONE`. -/
theorem thread_exit_state_only_advances_witness :
    exit_state_of demo_state demo_state.current_thread ≠ some .TE_EXITED ∧
    (exit_state_of demo_state 1 = some .TE_NONE ∧
      exit_state_of (sys_thread_exit demo_state).1 1 = some .TE_EXITING ∧
      exit_rank .TE_NONE ≤ exit_rank .TE_EXITING) ∧
    (exit_state_of demo_state 2 = some .TE_NONE ∧
      exit_state_of (sys_thread_exit demo_state).1 2 = some .TE_NONE) :=
  ⟨by decide,
    ⟨by decide,
      (thread_exit_state_only_advances demo_cfg demo_env demo_state).1 1 .TE_NONE (by decide),
      (thread_exit_state_only_advances demo_cfg demo_env demo_state).2.1 (by decide) 1
        .TE_NONE (by decide)⟩,
    by decide,
    (thread_exit_state_only_advances demo_cfg demo_env demo_state).1 2 .TE_NONE (by decide)⟩

end ChCore
